import Mathlib

/-!
# File upload widget (public/script.js)

A shallow embedding of the browser script that drives the upload widget:
the global `selectedFile`, the DOM elements the script reads and writes, the
event handlers (`change`, upload click, cancel click, `resetUploader`), the
promise chain of `uploadFile` and the interval started by `simulateProgress`.

Every JavaScript function that mutates globals becomes a function from state to
state.  `Widget` holds what the script itself owns (the global and the DOM
elements); `World` adds what the browser owns on its behalf (the requests that
were issued, how many of them still wait for a response, the running interval
timers and the console).
-/

namespace FileUploader

/-! ## Data model -/

/-- The part of a browser `File` object the script reads: `file.name`,
`file.size` (a byte count) and `file.type` (the declared MIME type). -/
structure File where
  name : String
  size : Nat
  type : String
deriving DecidableEq, Repr

/-- The two values the script assigns to `element.style.display`. -/
inductive Display where
  | none
  | block
deriving DecidableEq, Repr

/-- The global `selectedFile` together with the DOM elements of script.js,
lines 7-22.  Each panel is represented by its `style.display`, each text
element by its `textContent` (or `value`), `progressFill` by the percentage
written to `style.width`, and `fileInput` by its `files[0]` (no file is the
empty `value`). -/
structure Widget where
  selectedFile : Option File
  fileInput : Option File
  uploadArea : Display
  filePreview : Display
  progressBar : Display
  result : Display
  error : Display
  fileName : String
  fileSize : String
  progressFill : Nat
  errorMessage : String
  fileUrl : String
deriving DecidableEq, Repr

/-- One interval created by `simulateProgress`: its closure variable
`progress` and whether the interval is still scheduled (`clearInterval` has
not been called on it). -/
structure Ticker where
  progress : Nat
  active : Bool
deriving DecidableEq, Repr

/-- A JSON value as the script can observe it in `data.url`: whether it is
truthy (in `url || ...`) and the string it becomes when it is assigned to
`fileUrl.value`.  A number is given by the string its conversion to String
yields, which is `0` exactly for the zeros, the falsy numbers; an array or an
object, always truthy, is given by the string its conversion yields. -/
inductive Value where
  | null
  | bool (b : Bool)
  | num (text : String)
  | str (s : String)
  | compound (text : String)
deriving DecidableEq, Repr

/-- The value of `data` in the second `then` of `uploadFile`, a parsed JSON
body: `null`, an object with its fields in the order of the text, or any other
value (a boolean, a number, a string or an array), none of which has a
property `url`. -/
inductive Body where
  | null
  | object (fields : List (String × Value))
  | other
deriving DecidableEq, Repr

/-- What `response.json()` yields: the parsed body, or a rejection with its
reason when the body does not parse. -/
inductive JsonResult where
  | parsed (data : Body)
  | failed (reason : String)
deriving DecidableEq, Repr

/-- The value `err` the `catch` handler of `uploadFile` receives: the
`Error('Upload failed')` thrown at line 100, the `TypeError` raised at line 105
by reading `url` of `null`, or the reason a promise was rejected with. -/
inductive JsError where
  | uploadFailed
  | typeError
  | rejection (reason : String)
deriving DecidableEq, Repr

/-- The widget and the browser state around it: `requests` lists the file
appended to the form data of every `fetch` issued so far, `pending` counts the
fetches whose promise has not settled yet, `tickers` lists the intervals in
creation order, `console` the errors passed to `console.error`. -/
structure World where
  widget : Widget
  requests : List (Option File)
  pending : Nat
  tickers : List Ticker
  console : List JsError
deriving DecidableEq, Repr

/-- How the promise returned by `fetch` settles: with a response (its `ok`
flag and what `response.json()` yields for its body; the script calls `json()`
only on an ok response) or with a rejection (a network or transport failure)
carrying its reason. -/
inductive FetchOutcome where
  | response (ok : Bool) (json : JsonResult)
  | rejected (reason : String)
deriving DecidableEq, Repr

/-- The five states of the widget, one per panel. -/
inductive UIState where
  | Idle
  | Previewing
  | Uploading
  | Success
  | Error
deriving DecidableEq, Repr

/-! ## Constants -/

/-- Line 4: `MAX_FILE_SIZE = 10 * 1024 * 1024`. -/
def MAX_FILE_SIZE : Nat := 10 * 1024 * 1024

/-- Line 41: the list `allowedTypes` of `checkFile`. -/
def allowedTypes : List String :=
  ["image/jpeg", "image/png", "image/gif", "application/pdf", "text/plain"]

/-! ## JavaScript primitives used by the script

File sizes are non-negative integers well below `2^53`, and the script only
divides them by `1024` and `1024 * 1024`.  Dividing a double by a power of two
only changes its exponent, so both quotients are exact and are modelled by the
rational number they denote. -/

/-- The function `Math.round`: the integer closest to `x`, the one closer to
`+∞` when two are equally close. -/
def Math.round (x : ℚ) : ℤ := ⌊x + 1 / 2⌋

/-- The conversion of an integral Number to a String, as done by `+ ' KB'`. -/
def numberToString (z : ℤ) : String := toString z

/-- Steps of `Number.prototype.toFixed` after the integer `n` is chosen: `m` is
the decimal digits of `n`, padded with leading zeros to at least `f + 1`
digits, and the result is `m` with a point before its last `f` digits. -/
def toFixedDigits (n f : Nat) : String :=
  let m : List Char := (Nat.repr n).data
  let m : List Char :=
    if m.length ≤ f then List.replicate (f + 1 - m.length) '0' ++ m else m
  if f = 0 then String.mk m
  else String.mk (m.take (m.length - f) ++ '.' :: m.drop (m.length - f))

/-- The method `Number.prototype.toFixed` for a non-negative `x` below `10^21`:
`n` is the integer for which `n / 10^f - x` is as close to zero as possible
(the larger one when there are two), printed by `toFixedDigits`. -/
def toFixed (x : ℚ) (f : Nat) : String :=
  toFixedDigits (⌊x * 10 ^ f + 1 / 2⌋).toNat f

/-- Truthiness of a JSON value: `null`, `false`, the zeros and the empty string
are falsy, everything else is truthy. -/
def Value.truthy : Value → Bool
  | Value.null => false
  | Value.bool b => b
  | Value.num text => decide (text ≠ "0")
  | Value.str s => decide (s ≠ "")
  | Value.compound _ => true

/-- The conversion to String applied when a value is assigned to
`fileUrl.value`. -/
def Value.toJsString : Value → String
  | Value.null => "null"
  | Value.bool true => "true"
  | Value.bool false => "false"
  | Value.num text => text
  | Value.str s => s
  | Value.compound text => text

/-- The expression `url || d` as assigned to `fileUrl.value`, for a `url` that
is `undefined` (`none`) or a JSON value: a falsy `url` gives `d`. -/
def orDefault (url : Option Value) (d : String) : String :=
  match url with
  | some v => if v.truthy then v.toJsString else d
  | none => d

/-- The property `name` of a parsed object: `undefined` (`none`) when no field
has that key, the value of the last such field when the key is repeated. -/
def property (fields : List (String × Value)) (name : String) : Option Value :=
  List.lookup name fields.reverse

/-! ## The functions of script.js -/

/-- Lines 188-194: `hideAll`. -/
def hideAll (w : Widget) : Widget :=
  { w with
    uploadArea := Display.none
    filePreview := Display.none
    progressBar := Display.none
    result := Display.none
    error := Display.none }

/-- Lines 144-151: `showError`. -/
def showError (w : Widget) (message : String) : Widget :=
  { hideAll w with
    errorMessage := message
    error := Display.block }

/-- Lines 131-141: `showSuccess`. -/
def showSuccess (w : Widget) (url : Option Value) : Widget :=
  { hideAll w with
    fileUrl := orDefault url "File uploaded successfully"
    result := Display.block
    progressFill := 100 }

/-- Lines 57-63: the value of `sizeText` in `showFilePreview`. -/
def sizeText (size : Nat) : String :=
  if size < 1024 * 1024 then
    numberToString (Math.round ((size : ℚ) / 1024)) ++ " KB"
  else
    toFixed ((size : ℚ) / (1024 * 1024)) 2 ++ " MB"

/-- Lines 53-69: `showFilePreview`. -/
def showFilePreview (w : Widget) (file : File) : Widget :=
  { w with
    fileName := file.name
    fileSize := sizeText file.size
    uploadArea := Display.none
    filePreview := Display.block }

/-- Lines 33-50: `checkFile`. -/
def checkFile (w : Widget) (file : File) : Widget :=
  if file.size > MAX_FILE_SIZE then
    showError w "File is too large! Maximum size is 10MB."
  else if ¬ (file.type ∈ allowedTypes) then
    showError w "Invalid file type! Only JPG, PNG, GIF, PDF, and TXT files are allowed."
  else
    showFilePreview { w with selectedFile := some file } file

/-- Lines 172-185: `resetUploader`. -/
def resetUploader (w : Widget) : Widget :=
  { hideAll { w with selectedFile := Option.none, fileInput := Option.none, progressFill := 0 } with
    uploadArea := Display.block }

/-- Lines 118-128: `simulateProgress` creates an interval whose closure
variable `progress` starts at `0`. -/
def simulateProgress (s : World) : World :=
  { s with tickers := s.tickers ++ [{ progress := 0, active := true }] }

/-- Lines 82-115: the synchronous part of `uploadFile`: the form data takes
`selectedFile`, the preview is hidden, the progress bar shown, the request is
issued and the progress interval started. -/
def uploadFile (s : World) : World :=
  simulateProgress
    { s with
      widget := { s.widget with filePreview := Display.none, progressBar := Display.block }
      requests := s.requests ++ [s.widget.selectedFile]
      pending := s.pending + 1 }

/-- Lines 96-111: the handlers chained on the promise of `fetch`.  An ok
response whose body parses to an object, or to any other value but `null`,
reaches `showSuccess(data.url)`; for the body `null` reading `data.url` throws
a `TypeError`; a response that is not ok throws `Error('Upload failed')`; a
body that does not parse and a rejected fetch reject the chain.  All four
failures end in the `catch` handler, which shows the error and logs it. -/
def fetchSettled (s : World) (o : FetchOutcome) : World :=
  match o with
  | FetchOutcome.response true (JsonResult.parsed (Body.object fields)) =>
      { s with widget := showSuccess s.widget (property fields "url") }
  | FetchOutcome.response true (JsonResult.parsed Body.other) =>
      { s with widget := showSuccess s.widget Option.none }
  | FetchOutcome.response true (JsonResult.parsed Body.null) =>
      { s with
        widget := showError s.widget "Upload failed. Please try again."
        console := s.console ++ [JsError.typeError] }
  | FetchOutcome.response true (JsonResult.failed reason) =>
      { s with
        widget := showError s.widget "Upload failed. Please try again."
        console := s.console ++ [JsError.rejection reason] }
  | FetchOutcome.response false _ =>
      { s with
        widget := showError s.widget "Upload failed. Please try again."
        console := s.console ++ [JsError.uploadFailed] }
  | FetchOutcome.rejected reason =>
      { s with
        widget := showError s.widget "Upload failed. Please try again."
        console := s.console ++ [JsError.rejection reason] }

/-- Lines 120-127: one firing of the callback of a ticker. -/
def Ticker.fire (t : Ticker) : Ticker :=
  { progress := t.progress + 10, active := decide (t.progress + 10 < 90) }

/-- Lines 120-127 on the world: the `i`-th interval fires.  A cleared (or
never created) interval does not fire; a scheduled one adds `10` to its
`progress`, writes it to `progressFill.style.width` and clears itself once
`progress >= 90`. -/
def tickerFire (s : World) (i : Nat) : World :=
  match s.tickers.get? i with
  | some t =>
      if t.active then
        { s with
          widget := { s.widget with progressFill := t.progress + 10 }
          tickers := s.tickers.set i t.fire }
      else s
  | Option.none => s

/-! ## Events -/

/-- What can happen to the page: the `change` event of the file input (with
the new `files[0]`), a click on the upload button, a click on the cancel
button, a call of `window.resetUploader` from an `onclick` attribute, the
settling of a pending fetch, and the firing of the `i`-th interval. -/
inductive Event where
  | change (file : Option File)
  | uploadClick
  | cancelClick
  | reset
  | settle (o : FetchOutcome)
  | tick (i : Nat)
deriving DecidableEq, Repr

/-- Lines 25-30: the `change` listener of the file input. -/
def onChange (w : Widget) (file : Option File) : Widget :=
  match file with
  | some f => checkFile { w with fileInput := some f } f
  | Option.none => { w with fileInput := Option.none }

/-- Lines 72-76: the `click` listener of the upload button. -/
def onUploadClick (s : World) : World :=
  if s.widget.selectedFile.isSome then uploadFile s else s

/-- One event.  A fetch can only settle while one is pending. -/
def step (s : World) (e : Event) : World :=
  match e with
  | Event.change file => { s with widget := onChange s.widget file }
  | Event.uploadClick => onUploadClick s
  | Event.cancelClick => { s with widget := resetUploader s.widget }
  | Event.reset => { s with widget := resetUploader s.widget }
  | Event.settle o =>
      if 0 < s.pending then fetchSettled { s with pending := s.pending - 1 } o else s
  | Event.tick i => tickerFire s i

/-- A sequence of events, applied from left to right. -/
def run (s : World) (es : List Event) : World := es.foldl step s

/-- Modelled from the spec: the markup and the style sheet of the page are not
part of the script, so the state of the page after loading is taken from the
specification, where Idle is the initial state: only the upload area is
visible, the progress indicator is empty and no text has been written.  The
value of `selectedFile` is the `null` of line 7. -/
def initWidget : Widget :=
  { selectedFile := Option.none
    fileInput := Option.none
    uploadArea := Display.block
    filePreview := Display.none
    progressBar := Display.none
    result := Display.none
    error := Display.none
    fileName := ""
    fileSize := ""
    progressFill := 0
    errorMessage := ""
    fileUrl := "" }

/-- The page after loading: no request issued, no interval running. -/
def init : World :=
  { widget := initWidget, requests := [], pending := 0, tickers := [], console := [] }

/-! ## Observations -/

/-- The number of visible panels. -/
def visibleCount (w : Widget) : Nat :=
  ([w.uploadArea, w.filePreview, w.progressBar, w.result, w.error].filter
    (fun d => decide (d = Display.block))).length

/-- The state the panels show: defined when exactly one panel is visible. -/
def uiState (w : Widget) : Option UIState :=
  match w.uploadArea, w.filePreview, w.progressBar, w.result, w.error with
  | Display.block, Display.none, Display.none, Display.none, Display.none => some UIState.Idle
  | Display.none, Display.block, Display.none, Display.none, Display.none => some UIState.Previewing
  | Display.none, Display.none, Display.block, Display.none, Display.none => some UIState.Uploading
  | Display.none, Display.none, Display.none, Display.block, Display.none => some UIState.Success
  | Display.none, Display.none, Display.none, Display.none, Display.block => some UIState.Error
  | _, _, _, _, _ => Option.none

/-- A file that passes both checks of `checkFile`. -/
def validFile (f : File) : Prop := f.size ≤ MAX_FILE_SIZE ∧ f.type ∈ allowedTypes

instance (f : File) : Decidable (validFile f) := by
  unfold validFile; exact inferInstance

/-- The states in which the page offers an event when panels are exclusive: a
file can be chosen while the widget is Idle or Previewing, the upload button
clicked while it is Previewing or Uploading; a reset, a cancel, a settling
fetch and a firing interval are not restricted. -/
def offered (w : Widget) (e : Event) : Bool :=
  match e with
  | Event.change _ =>
      decide (uiState w = some UIState.Idle) || decide (uiState w = some UIState.Previewing)
  | Event.uploadClick =>
      decide (uiState w = some UIState.Previewing) || decide (uiState w = some UIState.Uploading)
  | _ => true

/-- Every event of the sequence is offered in the state it is applied in. -/
def allOffered (s : World) : List Event → Bool
  | [] => true
  | e :: es => offered s.widget e && allOffered (step s e) es

/-- The states in which the controls are reachable in the state machine of the
specification: a file can be chosen while the widget is Idle or Previewing, the
upload button clicked while it is Previewing, and a cancel or a reset invoked
in any state but Uploading; a settling fetch and a firing interval are not
restricted. -/
def enabled (w : Widget) (e : Event) : Bool :=
  match e with
  | Event.change _ =>
      decide (uiState w = some UIState.Idle) || decide (uiState w = some UIState.Previewing)
  | Event.uploadClick => decide (uiState w = some UIState.Previewing)
  | Event.cancelClick => decide (uiState w ≠ some UIState.Uploading)
  | Event.reset => decide (uiState w ≠ some UIState.Uploading)
  | _ => true

/-- Every event of the sequence is enabled in the state it is applied in. -/
def allEnabled (s : World) : List Event → Bool
  | [] => true
  | e :: es => enabled s.widget e && allEnabled (step s e) es

/-! ## The reference rule for the displayed size -/

/-- The rounding of the specification: `k / scale` is a multiple of `1 / scale`
nearest to `q`, and the larger one when two are equally near (ties rounded up).
With `scale = 1` this is rounding to the nearest integer, with `scale = 100`
rounding to two decimal places. -/
def NearestTiesUp (scale : ℕ) (q : ℚ) (k : ℤ) : Prop :=
  (∀ j : ℤ, |q - k / scale| ≤ |q - j / scale|) ∧
  (∀ j : ℤ, |q - j / scale| = |q - k / scale| → j ≤ k)

/-- A number of hundredths `h` printed with exactly two fractional digits: the
decimal numeral of `h / 100`, a point, and the two digits of `h % 100`. -/
def twoDecimals (h : Nat) : String :=
  Nat.repr (h / 100) ++ "." ++ String.mk [Nat.digitChar (h % 100 / 10), Nat.digitChar (h % 10)]

/-! ## Auxiliary facts -/

/-- The floor of `n / b + 1 / 2` in integer arithmetic. -/
theorem floor_add_half (n b : ℕ) (hb : 0 < b) :
    ⌊(n : ℚ) / b + 1 / 2⌋ = (((2 * n + b) / (2 * b) : ℕ) : ℤ) := by
  have hb' : (b : ℚ) ≠ 0 := by exact_mod_cast hb.ne'
  have : (n : ℚ) / b + 1 / 2 = ((2 * n + b : ℕ) : ℚ) / ((2 * b : ℕ) : ℚ) := by
    push_cast; field_simp; ring
  rw [this, Rat.floor_natCast_div_natCast]
  norm_cast

/-- The floor of `q * scale + 1 / 2` rounds `q` to the nearest multiple of
`1 / scale`, ties up. -/
theorem nearestTiesUp_floor (scale : ℕ) (hs : 0 < scale) (q : ℚ) :
    NearestTiesUp scale q ⌊q * scale + 1 / 2⌋ := by
  have hs' : (0 : ℚ) < scale := by exact_mod_cast hs
  set k := ⌊q * scale + 1 / 2⌋ with hk
  have h1 : (k : ℚ) ≤ q * scale + 1 / 2 := Int.floor_le _
  have h2 : q * scale + 1 / 2 < k + 1 := Int.lt_floor_add_one _
  have key : ∀ j : ℤ, |q - j / scale| = |q * scale - j| / scale := by
    intro j
    have : q - j / scale = (q * scale - j) / scale := by field_simp
    rw [this, abs_div, abs_of_pos hs']
  have hk1 : |q * scale - k| ≤ 1 / 2 := by
    rw [abs_le]; constructor <;> linarith
  have far : ∀ j : ℤ, j ≠ k →
      1 / 2 ≤ |q * scale - j| ∧ (k < j → 1 / 2 < |q * scale - j|) := by
    intro j hj
    rcases lt_or_gt_of_ne hj with h | h
    · have : (j : ℚ) + 1 ≤ k := by exact_mod_cast h
      refine ⟨le_trans ?_ (le_abs_self _), fun h' => absurd h (not_lt.mpr h'.le)⟩
      linarith
    · have : (k : ℚ) + 1 ≤ j := by exact_mod_cast h
      have h3 : 1 / 2 < -(q * scale - j) := by linarith
      have h4 : -(q * scale - j) ≤ |q * scale - j| := neg_le_abs _
      exact ⟨by linarith, fun _ => by linarith⟩
  constructor
  · intro j
    rw [key, key]
    apply div_le_div_of_nonneg_right _ hs'.le
    by_cases hj : j = k
    · rw [hj]
    · exact le_trans hk1 (far j hj).1
  · intro j hj
    rw [key, key] at hj
    have hj' : |q * scale - j| = |q * scale - k| := by
      field_simp at hj; exact hj
    by_contra hlt
    push_neg at hlt
    have := (far j hlt.ne').2 hlt
    linarith

/-- The integer `Math.round` returns for `size / 1024`. -/
theorem round_kilobytes (n : ℕ) :
    Math.round ((n : ℚ) / 1024) = (((2 * n + 1024) / 2048 : ℕ) : ℤ) := by
  have := floor_add_half n 1024 (by norm_num)
  simpa [Math.round] using this

/-- The integer `toFixed(2)` chooses for `size / (1024 * 1024)`. -/
theorem floor_hundredths (n : ℕ) :
    ⌊(n : ℚ) / (1024 * 1024) * 10 ^ 2 + 1 / 2⌋
      = (((200 * n + 1048576) / 2097152 : ℕ) : ℤ) := by
  have h := floor_add_half (100 * n) 1048576 (by norm_num)
  have e : (n : ℚ) / (1024 * 1024) * 10 ^ 2 = ((100 * n : ℕ) : ℚ) / ((1048576 : ℕ) : ℚ) := by
    push_cast; ring
  rw [e, h]
  congr 2
  omega

/-- The value of `sizeText` in natural-number arithmetic. -/
theorem sizeText_eq (n : ℕ) :
    sizeText n =
      if n < 1048576 then Nat.repr ((2 * n + 1024) / 2048) ++ " KB"
      else toFixedDigits ((200 * n + 1048576) / 2097152) 2 ++ " MB" := by
  unfold sizeText
  have e : (1024 * 1024 : ℕ) = 1048576 := by norm_num
  rw [e]
  by_cases h : n < 1048576
  · rw [if_pos h, if_pos h, round_kilobytes]
    rfl
  · rw [if_neg h, if_neg h]
    unfold toFixed
    rw [floor_hundredths, Int.toNat_ofNat]

set_option maxRecDepth 100000 in
/-- Between 1.00 and 10.00 the digits of `toFixed(2)` are the integer part, a
point and two fractional digits. -/
theorem toFixedDigits_two : ∀ h < 1001, 100 ≤ h → toFixedDigits h 2 = twoDecimals h := by
  decide


/-- A property that holds initially and is kept by every event holds after
every sequence of events. -/
theorem run_induction (P : World → Prop) (hstep : ∀ s e, P s → P (step s e))
    (es : List Event) : ∀ s, P s → P (run s es) := by
  induction es with
  | nil => intro s hs; exact hs
  | cons e es ih => intro s hs; exact ih (step s e) (hstep s e hs)

/-- The function `tickerFire` leaves everything but `progressFill` and the
tickers unchanged. -/
theorem tickerFire_selectedFile (s : World) (i : Nat) :
    (tickerFire s i).widget.selectedFile = s.widget.selectedFile := by
  unfold tickerFire
  cases s.tickers.get? i with
  | none => rfl
  | some t => by_cases ht : t.active = true <;> simp [ht]

/-- The function `tickerFire` does not touch the panels. -/
theorem tickerFire_panels (s : World) (i : Nat) :
    (tickerFire s i).widget.uploadArea = s.widget.uploadArea ∧
    (tickerFire s i).widget.filePreview = s.widget.filePreview ∧
    (tickerFire s i).widget.progressBar = s.widget.progressBar ∧
    (tickerFire s i).widget.result = s.widget.result ∧
    (tickerFire s i).widget.error = s.widget.error := by
  unfold tickerFire
  cases s.tickers.get? i with
  | none => simp
  | some t => by_cases ht : t.active = true <;> simp [ht]

/-- The handlers of the fetch promise never assign `selectedFile`. -/
theorem fetchSettled_selectedFile (s : World) (o : FetchOutcome) :
    (fetchSettled s o).widget.selectedFile = s.widget.selectedFile := by
  rcases o with ⟨ok, j⟩ | m
  · cases ok <;> rcases j with (_ | _ | _) | _ <;> rfl
  · rfl

/-- A failed validation leaves `selectedFile` as it was. -/
theorem checkFile_invalid_selectedFile (w : Widget) (file : File) (h : ¬ validFile file) :
    (checkFile w file).selectedFile = w.selectedFile := by
  unfold checkFile
  by_cases h1 : file.size > MAX_FILE_SIZE
  · simp [h1, showError, hideAll]
  · have h2 : ¬ file.type ∈ allowedTypes := fun hm => h ⟨Nat.le_of_not_gt h1, hm⟩
    simp [h1, h2, showError, hideAll]

/-- A passed validation stores the file. -/
theorem checkFile_valid_selectedFile (w : Widget) (file : File) (h : validFile file) :
    (checkFile w file).selectedFile = some file := by
  unfold checkFile
  have h1 : ¬ file.size > MAX_FILE_SIZE := Nat.not_lt.mpr h.1
  simp [h1, h.2, showFilePreview]

/-- The only files `step` ever stores in `selectedFile` are valid ones. -/
theorem step_selectedFile_valid (s : World) (e : Event)
    (hs : ∀ g, s.widget.selectedFile = some g → validFile g) :
    ∀ g, (step s e).widget.selectedFile = some g → validFile g := by
  intro g hg
  cases e with
  | change file =>
      cases file with
      | none => exact hs g hg
      | some f =>
          by_cases hv : validFile f
          · have := checkFile_valid_selectedFile { s.widget with fileInput := some f } f hv
            simp only [step, onChange] at hg
            rw [this] at hg
            cases hg
            exact hv
          · have := checkFile_invalid_selectedFile { s.widget with fileInput := some f } f hv
            simp only [step, onChange] at hg
            rw [this] at hg
            exact hs g hg
  | uploadClick =>
      apply hs g
      simp only [step, onUploadClick] at hg
      by_cases hsel : s.widget.selectedFile.isSome = true
      · simpa [hsel, uploadFile, simulateProgress] using hg
      · simpa [hsel] using hg
  | cancelClick => simp [step, resetUploader, hideAll] at hg
  | reset => simp [step, resetUploader, hideAll] at hg
  | settle o =>
      apply hs g
      simp only [step] at hg
      by_cases hp : 0 < s.pending
      · rw [if_pos hp, fetchSettled_selectedFile] at hg
        exact hg
      · rw [if_neg hp] at hg
        exact hg
  | tick i =>
      apply hs g
      simp only [step] at hg
      rw [tickerFire_selectedFile] at hg
      exact hg

/-- In every state reached from the loaded page, a stored file is valid. -/
theorem run_selectedFile_valid (es : List Event) :
    ∀ g, (run init es).widget.selectedFile = some g → validFile g :=
  run_induction (fun s => ∀ g, s.widget.selectedFile = some g → validFile g)
    step_selectedFile_valid es init (by intro g hg; simp [init, initWidget] at hg)

/-- Exactly one panel is visible when the panels show a state. -/
theorem visibleCount_eq_one_iff (w : Widget) :
    visibleCount w = 1 ↔ (uiState w).isSome = true := by
  rcases w with ⟨sel, fi, ua, fp, pb, r, er, fnm, fsz, pf, em, fu⟩
  cases ua <;> cases fp <;> cases pb <;> cases r <;> cases er <;>
    simp [visibleCount, uiState]

/-- The function `showError` leaves only the error panel visible. -/
theorem uiState_showError (w : Widget) (m : String) :
    uiState (showError w m) = some UIState.Error := by
  simp [showError, hideAll, uiState]

/-- The function `showSuccess` leaves only the success panel visible. -/
theorem uiState_showSuccess (w : Widget) (url : Option Value) :
    uiState (showSuccess w url) = some UIState.Success := by
  simp [showSuccess, hideAll, uiState]

/-- The function `resetUploader` leaves only the upload area visible. -/
theorem uiState_resetUploader (w : Widget) :
    uiState (resetUploader w) = some UIState.Idle := by
  simp [resetUploader, hideAll, uiState]

/-- The handlers of the fetch promise leave exactly one panel visible. -/
theorem uiState_fetchSettled (s : World) (o : FetchOutcome) :
    (uiState (fetchSettled s o).widget).isSome = true := by
  rcases o with ⟨ok, j⟩ | m
  · cases ok <;> rcases j with (_ | _ | _) | _ <;>
      simp [fetchSettled, uiState_showError, uiState_showSuccess]
  · simp [fetchSettled, uiState_showError]

/-- The function `checkFile` keeps the panels exclusive from Idle and from
Previewing. -/
theorem uiState_checkFile (w : Widget) (file : File)
    (h : uiState w = some UIState.Idle ∨ uiState w = some UIState.Previewing) :
    (uiState (checkFile w file)).isSome = true := by
  unfold checkFile
  by_cases h1 : file.size > MAX_FILE_SIZE
  · simp [h1, uiState_showError]
  · by_cases h2 : file.type ∈ allowedTypes
    · rcases w with ⟨sel, fi, ua, fp, pb, r, er, fnm, fsz, pf, em, fu⟩
      cases ua <;> cases fp <;> cases pb <;> cases r <;> cases er <;>
        simp [uiState] at h <;> simp [h1, h2, showFilePreview, uiState]
    · simp [h1, h2, uiState_showError]

/-- The function `uploadFile` keeps the panels exclusive from Previewing and
from Uploading. -/
theorem uiState_uploadFile (s : World)
    (h : uiState s.widget = some UIState.Previewing ∨ uiState s.widget = some UIState.Uploading) :
    uiState (uploadFile s).widget = some UIState.Uploading := by
  rcases s with ⟨⟨sel, fi, ua, fp, pb, r, er, fnm, fsz, pf, em, fu⟩, rq, pn, tk, cs⟩
  cases ua <;> cases fp <;> cases pb <;> cases r <;> cases er <;>
    simp [uiState] at h <;> simp [uploadFile, simulateProgress, uiState]

/-- An offered event keeps the panels exclusive. -/
theorem step_exclusive (s : World) (e : Event) (hs : (uiState s.widget).isSome = true)
    (ho : offered s.widget e = true) : (uiState (step s e).widget).isSome = true := by
  cases e with
  | change file =>
      cases file with
      | none =>
          have : uiState (step s (Event.change Option.none)).widget = uiState s.widget := rfl
          rw [this]; exact hs
      | some f =>
          have ho' : uiState s.widget = some UIState.Idle ∨
              uiState s.widget = some UIState.Previewing := by
            simpa [offered] using ho
          have hfi : uiState { s.widget with fileInput := some f } = uiState s.widget := rfl
          exact uiState_checkFile _ f (by rw [hfi]; exact ho')
  | uploadClick =>
      have ho' : uiState s.widget = some UIState.Previewing ∨
          uiState s.widget = some UIState.Uploading := by
        simpa [offered] using ho
      simp only [step, onUploadClick]
      by_cases hsel : s.widget.selectedFile.isSome = true
      · rw [if_pos hsel, uiState_uploadFile s ho']; rfl
      · rw [if_neg hsel]; exact hs
  | cancelClick => simp [step, uiState_resetUploader]
  | reset => simp [step, uiState_resetUploader]
  | settle o =>
      simp only [step]
      by_cases hp : 0 < s.pending
      · rw [if_pos hp]; exact uiState_fetchSettled _ o
      · rw [if_neg hp]; exact hs
  | tick i =>
      have hp := tickerFire_panels s i
      have : uiState (step s (Event.tick i)).widget = uiState s.widget := by
        simp only [step, uiState]
        rw [hp.1, hp.2.1, hp.2.2.1, hp.2.2.2.1, hp.2.2.2.2]
      rw [this]; exact hs

/-- Offered events keep the panels exclusive along a whole sequence. -/
theorem run_exclusive (es : List Event) :
    ∀ s, (uiState s.widget).isSome = true → allOffered s es = true →
      (uiState (run s es).widget).isSome = true := by
  induction es with
  | nil => intro s hs _; exact hs
  | cons e es ih =>
      intro s hs ho
      simp only [allOffered, Bool.and_eq_true] at ho
      exact ih (step s e) (step_exclusive s e hs ho.1) ho.2

/-- While the upload area is visible no file is stored: kept by every event. -/
theorem step_uploadArea_selectedFile (s : World) (e : Event)
    (hs : s.widget.uploadArea = Display.block → s.widget.selectedFile = Option.none) :
    (step s e).widget.uploadArea = Display.block →
      (step s e).widget.selectedFile = Option.none := by
  cases e with
  | change file =>
      cases file with
      | none => exact hs
      | some f =>
          intro h
          exfalso
          revert h
          simp only [step, onChange, checkFile]
          by_cases h1 : f.size > MAX_FILE_SIZE
          · simp [h1, showError, hideAll]
          · by_cases h2 : f.type ∈ allowedTypes
            · simp [h1, h2, showFilePreview]
            · simp [h1, h2, showError, hideAll]
  | uploadClick =>
      simp only [step, onUploadClick]
      by_cases hsel : s.widget.selectedFile.isSome = true
      · rw [if_pos hsel]
        intro h
        have : s.widget.selectedFile = Option.none := hs h
        rw [this] at hsel
        cases hsel
      · rw [if_neg hsel]; exact hs
  | cancelClick => intro _; rfl
  | reset => intro _; rfl
  | settle o =>
      simp only [step]
      by_cases hp : 0 < s.pending
      · rw [if_pos hp]
        intro h
        exfalso
        revert h
        rcases o with ⟨ok, j⟩ | m
        · cases ok <;> rcases j with (_ | _ | _) | _ <;>
            simp [fetchSettled, showError, showSuccess, hideAll]
        · simp [fetchSettled, showError, hideAll]
      · rw [if_neg hp]; exact hs
  | tick i =>
      simp only [step]
      rw [(tickerFire_panels s i).1, tickerFire_selectedFile]
      exact hs

/-- The function `tickerFire` issues and settles no request. -/
theorem tickerFire_pending (s : World) (i : Nat) :
    (tickerFire s i).pending = s.pending ∧ (tickerFire s i).requests = s.requests := by
  unfold tickerFire
  cases s.tickers.get? i with
  | none => simp
  | some t => by_cases ht : t.active = true <;> simp [ht]

/-- The function `tickerFire` does not change the state the panels show. -/
theorem uiState_tickerFire (s : World) (i : Nat) :
    uiState (tickerFire s i).widget = uiState s.widget := by
  have hp := tickerFire_panels s i
  simp only [uiState]
  rw [hp.1, hp.2.1, hp.2.2.1, hp.2.2.2.1, hp.2.2.2.2]

/-- A firing of a scheduled interval. -/
theorem tickerFire_active (s : World) (i : Nat) (t : Ticker)
    (h : s.tickers.get? i = some t) (ha : t.active = true) :
    tickerFire s i =
      { s with
        widget := { s.widget with progressFill := t.progress + 10 }
        tickers := s.tickers.set i t.fire } := by
  unfold tickerFire
  rw [h]
  simp [ha]

/-- A cleared interval does not fire. -/
theorem tickerFire_inactive (s : World) (i : Nat) (t : Ticker)
    (h : s.tickers.get? i = some t) (ha : t.active = false) :
    tickerFire s i = s := by
  unfold tickerFire
  rw [h]
  simp [ha]

/-- The handlers of the fetch promise leave the intervals alone. -/
theorem fetchSettled_tickers (s : World) (o : FetchOutcome) :
    (fetchSettled s o).tickers = s.tickers := by
  rcases o with ⟨ok, j⟩ | m
  · cases ok <;> rcases j with (_ | _ | _) | _ <;> rfl
  · rfl

/-- The settling of a fetch leaves the intervals alone. -/
theorem step_settle_tickers (s : World) (o : FetchOutcome) :
    (step s (Event.settle o)).tickers = s.tickers := by
  simp only [step]
  by_cases hp : 0 < s.pending
  · rw [if_pos hp, fetchSettled_tickers]
  · rw [if_neg hp]

/-- The handlers of the fetch promise issue no request. -/
theorem fetchSettled_pending (s : World) (o : FetchOutcome) :
    (fetchSettled s o).pending = s.pending := by
  rcases o with ⟨ok, j⟩ | m
  · cases ok <;> rcases j with (_ | _ | _) | _ <;> rfl
  · rfl

/-- A scheduled interval has a `progress` below 90: kept by every event. -/
theorem step_tickers_bound (s : World) (e : Event)
    (hs : ∀ t ∈ s.tickers, t.active = true → t.progress < 90) :
    ∀ t ∈ (step s e).tickers, t.active = true → t.progress < 90 := by
  cases e with
  | change file => exact hs
  | uploadClick =>
      simp only [step, onUploadClick]
      by_cases hsel : s.widget.selectedFile.isSome = true
      · rw [if_pos hsel]
        intro t ht ha
        simp only [uploadFile, simulateProgress, List.mem_append, List.mem_singleton] at ht
        rcases ht with ht | ht
        · exact hs t ht ha
        · rw [ht]; decide
      · rw [if_neg hsel]; exact hs
  | cancelClick => exact hs
  | reset => exact hs
  | settle o =>
      intro t ht
      rw [step_settle_tickers] at ht
      exact hs t ht
  | tick i =>
      intro t ht ha
      simp only [step, tickerFire] at ht
      cases hget : s.tickers.get? i with
      | none => rw [hget] at ht; exact hs t ht ha
      | some u =>
          rw [hget] at ht
          by_cases hu : u.active = true
          · simp only [hu, if_true] at ht
            rcases List.mem_or_eq_of_mem_set ht with h | h
            · exact hs t h ha
            · rw [h] at ha ⊢
              simpa [Ticker.fire] using ha
          · simp only [hu] at ht
            exact hs t ht ha

/-- At most one request is pending, and only while the progress panel is the
visible one: kept by every enabled event. -/
theorem step_pending (s : World) (e : Event)
    (hs : s.pending = 0 ∨ (s.pending = 1 ∧ uiState s.widget = some UIState.Uploading))
    (he : enabled s.widget e = true) :
    (step s e).pending = 0 ∨
      ((step s e).pending = 1 ∧ uiState (step s e).widget = some UIState.Uploading) := by
  cases e with
  | change file =>
      have he' : uiState s.widget = some UIState.Idle ∨
          uiState s.widget = some UIState.Previewing := by
        simpa [enabled] using he
      left
      show s.pending = 0
      rcases hs with h | ⟨_, h⟩
      · exact h
      · rw [h] at he'; simp at he'
  | uploadClick =>
      have he' : uiState s.widget = some UIState.Previewing := by
        simpa [enabled] using he
      have h0 : s.pending = 0 := by
        rcases hs with h | ⟨_, h⟩
        · exact h
        · rw [h] at he'; simp at he'
      simp only [step, onUploadClick]
      by_cases hsel : s.widget.selectedFile.isSome = true
      · rw [if_pos hsel]
        right
        refine ⟨?_, uiState_uploadFile s (Or.inl he')⟩
        show s.pending + 1 = 1
        rw [h0]
      · rw [if_neg hsel]; exact Or.inl h0
  | cancelClick =>
      have he' : uiState s.widget ≠ some UIState.Uploading := by
        simpa [enabled] using he
      left
      show s.pending = 0
      rcases hs with h | ⟨_, h⟩
      · exact h
      · exact absurd h he'
  | reset =>
      have he' : uiState s.widget ≠ some UIState.Uploading := by
        simpa [enabled] using he
      left
      show s.pending = 0
      rcases hs with h | ⟨_, h⟩
      · exact h
      · exact absurd h he'
  | settle o =>
      simp only [step]
      by_cases hp : 0 < s.pending
      · rw [if_pos hp, fetchSettled_pending]
        left
        show s.pending - 1 = 0
        rcases hs with h | ⟨h, _⟩ <;> omega
      · rw [if_neg hp]; exact hs
  | tick i =>
      simp only [step]
      rw [(tickerFire_pending s i).1, uiState_tickerFire]
      exact hs

/-- Enabled events keep at most one request pending along a whole sequence. -/
theorem run_pending (es : List Event) :
    ∀ s, (s.pending = 0 ∨ (s.pending = 1 ∧ uiState s.widget = some UIState.Uploading)) →
      allEnabled s es = true →
      ((run s es).pending = 0 ∨
        ((run s es).pending = 1 ∧ uiState (run s es).widget = some UIState.Uploading)) := by
  induction es with
  | nil => intro s hs _; exact hs
  | cons e es ih =>
      intro s hs he
      simp only [allEnabled, Bool.and_eq_true] at he
      exact ih (step s e) (step_pending s e hs he.1) he.2

/-- A sequence of events followed by one more event. -/
theorem run_concat (s : World) (es : List Event) (e : Event) :
    run s (es ++ [e]) = step (run s es) e := by
  simp [run, List.foldl_append]

/-- The interval created by `simulateProgress` is the last one. -/
theorem simulateProgress_get (s : World) :
    (simulateProgress s).tickers.get? s.tickers.length = some ⟨0, true⟩ := by
  simp [simulateProgress]

/-- The closure variable and the schedule of a fresh interval after `k`
timer periods, and the width it has written. -/
theorem run_ticks (i : Nat) (s : World) (h0 : s.tickers.get? i = some ⟨0, true⟩) (k : Nat) :
    (run s (List.replicate k (Event.tick i))).tickers.get? i
      = some ⟨10 * min k 9, decide (k < 9)⟩ ∧
    (1 ≤ k → (run s (List.replicate k (Event.tick i))).widget.progressFill = 10 * min k 9) := by
  induction k with
  | zero => exact ⟨by simpa [run] using h0, fun h => absurd h (by decide)⟩
  | succ k ih =>
      rw [List.replicate_succ', run_concat]
      show (tickerFire _ i).tickers.get? i = _ ∧ (_ → (tickerFire _ i).widget.progressFill = _)
      by_cases hk : k < 9
      · have ha : (⟨10 * min k 9, decide (k < 9)⟩ : Ticker).active = true := by simp [hk]
        rw [tickerFire_active _ i _ ih.1 ha]
        have hm : min k 9 = k := by omega
        have hm' : min (k + 1) 9 = k + 1 := by omega
        have hlen : i < (run s (List.replicate k (Event.tick i))).tickers.length := by
          have := ih.1
          rw [List.get?_eq_getElem?] at this
          exact (List.getElem?_eq_some.mp this).1
        refine ⟨?_, fun _ => ?_⟩
        · rw [List.get?_eq_getElem?]
          show ((run s (List.replicate k (Event.tick i))).tickers.set i _)[i]? = _
          rw [List.getElem?_set_self hlen, hm, hm']
          have hd : decide (10 * k + 10 < 90) = decide (k + 1 < 9) :=
            decide_eq_decide.mpr (by omega)
          simp only [Ticker.fire, hd]
          congr 2
        · show 10 * min k 9 + 10 = 10 * min (k + 1) 9
          omega
      · have ha : (⟨10 * min k 9, decide (k < 9)⟩ : Ticker).active = false := by simp [hk]
        rw [tickerFire_inactive _ i _ ih.1 ha]
        have hm : min k 9 = min (k + 1) 9 := by omega
        have hd : decide (k < 9) = decide (k + 1 < 9) := decide_eq_decide.mpr (by omega)
        refine ⟨?_, fun _ => ?_⟩
        · rw [← hm, ← hd]; exact ih.1
        · rw [← hm]; exact ih.2 (by omega)

/-- In every state reached from the loaded page a scheduled interval has a
`progress` below 90. -/
theorem run_tickers_bound (es : List Event) :
    ∀ t ∈ (run init es).tickers, t.active = true → t.progress < 90 :=
  run_induction (fun s => ∀ t ∈ s.tickers, t.active = true → t.progress < 90)
    step_tickers_bound es init (by intro t ht; simp [init] at ht)

/-- The closure variable of every interval is a multiple of 10: kept by every
event. -/
theorem step_tickers_dvd (s : World) (e : Event) (hs : ∀ t ∈ s.tickers, 10 ∣ t.progress) :
    ∀ t ∈ (step s e).tickers, 10 ∣ t.progress := by
  cases e with
  | change file => exact hs
  | uploadClick =>
      simp only [step, onUploadClick]
      by_cases hsel : s.widget.selectedFile.isSome = true
      · rw [if_pos hsel]
        intro t ht
        simp only [uploadFile, simulateProgress, List.mem_append, List.mem_singleton] at ht
        rcases ht with ht | ht
        · exact hs t ht
        · rw [ht]; exact Nat.dvd_zero 10
      · rw [if_neg hsel]; exact hs
  | cancelClick => exact hs
  | reset => exact hs
  | settle o =>
      intro t ht
      rw [step_settle_tickers] at ht
      exact hs t ht
  | tick i =>
      intro t ht
      simp only [step, tickerFire] at ht
      cases hget : s.tickers.get? i with
      | none => rw [hget] at ht; exact hs t ht
      | some u =>
          rw [hget] at ht
          by_cases hu : u.active = true
          · simp only [hu, if_true] at ht
            rcases List.mem_or_eq_of_mem_set ht with h | h
            · exact hs t h
            · rw [h]
              exact Nat.dvd_add (hs u (List.get?_mem hget)) (Nat.dvd_refl 10)
          · simp only [hu] at ht
            exact hs t ht

/-- In every state reached from the loaded page the closure variable of every
interval is a multiple of 10. -/
theorem run_tickers_dvd (es : List Event) : ∀ t ∈ (run init es).tickers, 10 ∣ t.progress :=
  run_induction (fun s => ∀ t ∈ s.tickers, 10 ∣ t.progress)
    step_tickers_dvd es init (by intro t ht; simp [init] at ht)

/-! ## Validation (`checkFile`) -/

/-- C1: a file larger than 10,485,760 bytes, whatever its MIME type and whatever
the widget state before the call, makes `checkFile` end in the Error state: only
the error panel is visible, the message is the too-large message, and the call
does not store the file: `selectedFile` keeps its earlier value, which in a
state reached from the loaded page is never this file. -/
theorem checkFile_too_large (w : Widget) (file : File) (h : file.size > 10485760) :
    uiState (checkFile w file) = some UIState.Error ∧
    (checkFile w file).error = Display.block ∧
    visibleCount (checkFile w file) = 1 ∧
    (checkFile w file).errorMessage = "File is too large! Maximum size is 10MB." ∧
    (checkFile w file).selectedFile = w.selectedFile ∧
    (∀ es, (checkFile (run init es).widget file).selectedFile ≠ some file) := by
  have h1 : file.size > MAX_FILE_SIZE := h
  have hnv : ¬ validFile file := fun hv => absurd hv.1 (Nat.not_le.mpr h1)
  refine ⟨?_, ?_, ?_, ?_, checkFile_invalid_selectedFile w file hnv, ?_⟩
  · simp [checkFile, h1, showError, hideAll, uiState]
  · simp [checkFile, h1, showError, hideAll]
  · simp [checkFile, h1, showError, hideAll, visibleCount]
  · simp [checkFile, h1, showError, hideAll]
  · intro es hsel
    rw [checkFile_invalid_selectedFile _ file hnv] at hsel
    exact hnv (run_selectedFile_valid es file hsel)

/-- Witness of C1 on the loaded page with an image of 10,485,761 bytes. -/
theorem checkFile_too_large_witness :
    (10485761 > 10485760) ∧
    (checkFile initWidget ⟨"b.png", 10485761, "image/png"⟩).errorMessage
      = "File is too large! Maximum size is 10MB." :=
  ⟨by decide, (checkFile_too_large initWidget ⟨"b.png", 10485761, "image/png"⟩ (by decide)).2.2.2.1⟩

/-- C2: a file of at most 10,485,760 bytes whose MIME type is none of the five
allowed ones makes `checkFile` end in the Error state: only the error panel is
visible, the message is the invalid-type message, and the call does not store
the file: `selectedFile` keeps its earlier value, which in a state reached from
the loaded page is never this file. -/
theorem checkFile_invalid_type (w : Widget) (file : File) (hsize : file.size ≤ 10485760)
    (htype : file.type ∉
      ["image/jpeg", "image/png", "image/gif", "application/pdf", "text/plain"]) :
    uiState (checkFile w file) = some UIState.Error ∧
    (checkFile w file).error = Display.block ∧
    visibleCount (checkFile w file) = 1 ∧
    (checkFile w file).errorMessage
      = "Invalid file type! Only JPG, PNG, GIF, PDF, and TXT files are allowed." ∧
    (checkFile w file).selectedFile = w.selectedFile ∧
    (∀ es, (checkFile (run init es).widget file).selectedFile ≠ some file) := by
  have h1 : ¬ file.size > MAX_FILE_SIZE := Nat.not_lt.mpr hsize
  have h2 : ¬ file.type ∈ allowedTypes := htype
  have hnv : ¬ validFile file := fun hv => h2 hv.2
  refine ⟨?_, ?_, ?_, ?_, checkFile_invalid_selectedFile w file hnv, ?_⟩
  · simp [checkFile, h1, h2, showError, hideAll, uiState]
  · simp [checkFile, h1, h2, showError, hideAll]
  · simp [checkFile, h1, h2, showError, hideAll, visibleCount]
  · simp [checkFile, h1, h2, showError, hideAll]
  · intro es hsel
    rw [checkFile_invalid_selectedFile _ file hnv] at hsel
    exact hnv (run_selectedFile_valid es file hsel)

/-- Witness of C2 on the loaded page with a zip archive of exactly 10,485,760
bytes. -/
theorem checkFile_invalid_type_witness :
    (checkFile initWidget ⟨"a.zip", 10485760, "application/zip"⟩).errorMessage
      = "Invalid file type! Only JPG, PNG, GIF, PDF, and TXT files are allowed." :=
  (checkFile_invalid_type initWidget ⟨"a.zip", 10485760, "application/zip"⟩
    (by decide) (by decide)).2.2.2.1

/-- C3, counterexample: on the loaded page a file that is too large leaves the
widget in the Error state; a valid file chosen next is stored and its preview
shown, but the error panel stays visible, so two panels are visible and the
widget is not in the Previewing state. -/
theorem checkFile_valid_not_previewing_example :
    uiState (checkFile initWidget ⟨"c.png", 10485761, "image/png"⟩) = some UIState.Error ∧
    validFile ⟨"a.png", 500000, "image/png"⟩ ∧
    (checkFile (checkFile initWidget ⟨"c.png", 10485761, "image/png"⟩)
      ⟨"a.png", 500000, "image/png"⟩).selectedFile = some ⟨"a.png", 500000, "image/png"⟩ ∧
    (checkFile (checkFile initWidget ⟨"c.png", 10485761, "image/png"⟩)
      ⟨"a.png", 500000, "image/png"⟩).filePreview = Display.block ∧
    (checkFile (checkFile initWidget ⟨"c.png", 10485761, "image/png"⟩)
      ⟨"a.png", 500000, "image/png"⟩).error = Display.block ∧
    visibleCount (checkFile (checkFile initWidget ⟨"c.png", 10485761, "image/png"⟩)
      ⟨"a.png", 500000, "image/png"⟩) = 2 ∧
    uiState (checkFile (checkFile initWidget ⟨"c.png", 10485761, "image/png"⟩)
      ⟨"a.png", 500000, "image/png"⟩) ≠ some UIState.Previewing := by
  refine ⟨by decide, by decide, by decide, by decide, by decide, by decide, by decide⟩

/-- C3, amended: a valid file is stored as `selectedFile`, its name is
displayed, the preview panel is shown and the upload area hidden, and the event
issues no request: the list of requests and the number of pending ones are
those of before.  The progress, success and error panels are left as they
were, so the result is the Previewing state, the preview being the only
visible panel, exactly when those three panels were hidden before the call, as
they are in Idle and in Previewing. -/
theorem checkFile_valid (s : World) (file : File) (hsize : file.size ≤ 10485760)
    (htype : file.type ∈
      ["image/jpeg", "image/png", "image/gif", "application/pdf", "text/plain"]) :
    (checkFile s.widget file).selectedFile = some file ∧
    (checkFile s.widget file).fileName = file.name ∧
    (checkFile s.widget file).filePreview = Display.block ∧
    (checkFile s.widget file).uploadArea = Display.none ∧
    (s.widget.progressBar = Display.none → s.widget.result = Display.none →
      s.widget.error = Display.none →
      uiState (checkFile s.widget file) = some UIState.Previewing) ∧
    (step s (Event.change (some file))).widget
      = checkFile { s.widget with fileInput := some file } file ∧
    (step s (Event.change (some file))).requests = s.requests ∧
    (step s (Event.change (some file))).pending = s.pending ∧
    (checkFile s.widget file).progressBar = s.widget.progressBar ∧
    (checkFile s.widget file).result = s.widget.result ∧
    (checkFile s.widget file).error = s.widget.error ∧
    (uiState (checkFile s.widget file) = some UIState.Previewing ↔
      s.widget.progressBar = Display.none ∧ s.widget.result = Display.none ∧
        s.widget.error = Display.none) ∧
    ((uiState s.widget = some UIState.Idle ∨ uiState s.widget = some UIState.Previewing) →
      uiState (checkFile s.widget file) = some UIState.Previewing) := by
  have h1 : ¬ file.size > MAX_FILE_SIZE := Nat.not_lt.mpr hsize
  have h2 : file.type ∈ allowedTypes := htype
  refine ⟨?_, ?_, ?_, ?_, ?_, rfl, rfl, rfl, ?_, ?_, ?_, ?_, ?_⟩
  · simp [checkFile, h1, h2, showFilePreview]
  · simp [checkFile, h1, h2, showFilePreview]
  · simp [checkFile, h1, h2, showFilePreview]
  · simp [checkFile, h1, h2, showFilePreview]
  · intro hp hr he
    simp [checkFile, h1, h2, showFilePreview, uiState, hp, hr, he]
  · simp [checkFile, h1, h2, showFilePreview]
  · simp [checkFile, h1, h2, showFilePreview]
  · simp [checkFile, h1, h2, showFilePreview]
  · rcases s with ⟨⟨sel, fi, ua, fp, pb, r, er, fnm, fsz, pf, em, fu⟩, rq, pn, tk, cs⟩
    cases pb <;> cases r <;> cases er <;>
      simp [checkFile, h1, h2, showFilePreview, uiState]
  · intro hst
    rcases s with ⟨⟨sel, fi, ua, fp, pb, r, er, fnm, fsz, pf, em, fu⟩, rq, pn, tk, cs⟩
    cases ua <;> cases fp <;> cases pb <;> cases r <;> cases er <;>
      simp [uiState] at hst <;> simp [checkFile, h1, h2, showFilePreview, uiState]

/-- Witness of the amended C3: on the loaded page an image of 500,000 bytes
gives the Previewing state and no request, and so does a text file chosen
while that image is previewed. -/
theorem checkFile_valid_witness :
    uiState (checkFile init.widget ⟨"a.png", 500000, "image/png"⟩) = some UIState.Previewing ∧
    (step init (Event.change (some ⟨"a.png", 500000, "image/png"⟩))).requests = [] ∧
    uiState (checkFile (run init [Event.change (some ⟨"a.png", 500000, "image/png"⟩)]).widget
      ⟨"b.txt", 10, "text/plain"⟩) = some UIState.Previewing :=
  ⟨(checkFile_valid init ⟨"a.png", 500000, "image/png"⟩ (by decide) (by decide)).2.2.2.2.1
      rfl rfl rfl,
   (checkFile_valid init ⟨"a.png", 500000, "image/png"⟩ (by decide) (by decide)).2.2.2.2.2.2.1,
   (checkFile_valid (run init [Event.change (some ⟨"a.png", 500000, "image/png"⟩)])
      ⟨"b.txt", 10, "text/plain"⟩ (by decide) (by decide)).2.2.2.2.1
      (by decide) (by decide) (by decide)⟩

/-! ## The displayed size -/

/-- C4: for a valid file of `n` bytes the size text written by
`showFilePreview` follows the reference rule.  Below 1,048,576 bytes it is the
decimal numeral of `n / 1024` rounded to the nearest integer, ties up, followed
by " KB"; from 1,048,576 bytes on it is `n / 1048576` rounded to two decimal
places, ties up, printed with exactly two fractional digits and followed by
" MB".  500,000 bytes give "488 KB" and 5,242,880 bytes give "5.00 MB". -/
theorem showFilePreview_sizeText (w : Widget) (file : File) (hsize : file.size ≤ 10485760)
    (htype : file.type ∈
      ["image/jpeg", "image/png", "image/gif", "application/pdf", "text/plain"]) :
    (checkFile w file).fileSize = (showFilePreview w file).fileSize ∧
    (file.size < 1048576 →
      ∃ k : ℕ, NearestTiesUp 1 ((file.size : ℚ) / 1024) k ∧
        (showFilePreview w file).fileSize = Nat.repr k ++ " KB") ∧
    (1048576 ≤ file.size →
      ∃ h : ℕ, NearestTiesUp 100 ((file.size : ℚ) / 1048576) h ∧
        (showFilePreview w file).fileSize = twoDecimals h ++ " MB") ∧
    (file.size = 500000 → (showFilePreview w file).fileSize = "488 KB") ∧
    (file.size = 5242880 → (showFilePreview w file).fileSize = "5.00 MB") := by
  have h1 : ¬ file.size > MAX_FILE_SIZE := Nat.not_lt.mpr hsize
  have h2 : file.type ∈ allowedTypes := htype
  have hshow : (showFilePreview w file).fileSize = sizeText file.size := rfl
  refine ⟨?_, ?_, ?_, ?_, ?_⟩
  · simp [checkFile, h1, h2, showFilePreview]
  · intro hlt
    refine ⟨(2 * file.size + 1024) / 2048, ?_, ?_⟩
    · have hn := nearestTiesUp_floor 1 (by norm_num) ((file.size : ℚ) / 1024)
      have hr := round_kilobytes file.size
      unfold Math.round at hr
      rw [Nat.cast_one, mul_one, hr] at hn
      exact hn
    · rw [hshow, sizeText_eq, if_pos hlt]
  · intro hge
    refine ⟨(200 * file.size + 1048576) / 2097152, ?_, ?_⟩
    · have hn := nearestTiesUp_floor 100 (by norm_num) ((file.size : ℚ) / 1048576)
      have hr := floor_hundredths file.size
      have e : (file.size : ℚ) / 1048576 * ((100 : ℕ) : ℚ)
          = (file.size : ℚ) / (1024 * 1024) * 10 ^ 2 := by
        push_cast; ring
      rw [e, hr] at hn
      exact hn
    · rw [hshow, sizeText_eq, if_neg (Nat.not_lt.mpr hge)]
      rw [toFixedDigits_two _ (by omega) (by omega)]
  · intro h
    rw [hshow, sizeText_eq, h]
    decide
  · intro h
    rw [hshow, sizeText_eq, h]
    decide

/-- Witness of C4 at a valid file of 1,179,648 bytes (1.125 MiB, a tie): the
displayed text is "1.13 MB". -/
theorem showFilePreview_sizeText_witness :
    ∃ h : ℕ, NearestTiesUp 100 (((1179648 : ℕ) : ℚ) / 1048576) h ∧
      (showFilePreview initWidget ⟨"a.pdf", 1179648, "application/pdf"⟩).fileSize
        = twoDecimals h ++ " MB" :=
  (showFilePreview_sizeText initWidget ⟨"a.pdf", 1179648, "application/pdf"⟩
    (by decide) (by decide)).2.2.1 (by decide)

/-! ## What a failed validation retains -/

/-- C5, counterexample: after the image `a.png` has been chosen and stored, the
rejected archive `b.zip` (wrong type) and the rejected image `c.png` (too
large) both leave `a.png` stored as `selectedFile`. -/
theorem checkFile_failure_retains_example :
    (run init [Event.change (some ⟨"a.png", 500000, "image/png"⟩)]).widget.selectedFile
      = some ⟨"a.png", 500000, "image/png"⟩ ∧
    ¬ validFile ⟨"b.zip", 1000, "application/zip"⟩ ∧
    (checkFile (run init [Event.change (some ⟨"a.png", 500000, "image/png"⟩)]).widget
        ⟨"b.zip", 1000, "application/zip"⟩).selectedFile
      = some ⟨"a.png", 500000, "image/png"⟩ ∧
    ¬ validFile ⟨"c.png", 10485761, "image/png"⟩ ∧
    (checkFile (run init [Event.change (some ⟨"a.png", 500000, "image/png"⟩)]).widget
        ⟨"c.png", 10485761, "image/png"⟩).selectedFile
      = some ⟨"a.png", 500000, "image/png"⟩ := by
  refine ⟨by decide, by decide, by decide, by decide, by decide⟩

/-- C5, amended: a failed validation (too large, or unsupported type) shows the
Error state and leaves `selectedFile` exactly as it was before the call: a file
stored earlier stays stored, none is stored when none was, and the displayed
name and size of the earlier selection are not touched either. -/
theorem checkFile_failure_keeps_selectedFile (w : Widget) (file : File)
    (h : file.size > 10485760 ∨ file.type ∉
      ["image/jpeg", "image/png", "image/gif", "application/pdf", "text/plain"]) :
    uiState (checkFile w file) = some UIState.Error ∧
    (checkFile w file).selectedFile = w.selectedFile ∧
    (checkFile w file).fileName = w.fileName ∧
    (checkFile w file).fileSize = w.fileSize := by
  have hnv : ¬ validFile file := by
    intro hv
    rcases h with h | h
    · exact absurd hv.1 (Nat.not_le.mpr h)
    · exact h hv.2
  refine ⟨?_, checkFile_invalid_selectedFile w file hnv, ?_, ?_⟩
  all_goals
    unfold checkFile
    by_cases h1 : file.size > MAX_FILE_SIZE
    · simp [h1, showError, hideAll, uiState]
    · have h2 : ¬ file.type ∈ allowedTypes := fun hm => hnv ⟨Nat.le_of_not_gt h1, hm⟩
      simp [h1, h2, showError, hideAll, uiState]

/-- Witness of the amended C5: the rejected archive leaves the stored image in
place. -/
theorem checkFile_failure_keeps_selectedFile_witness :
    (checkFile (run init [Event.change (some ⟨"a.png", 500000, "image/png"⟩)]).widget
        ⟨"b.zip", 1000, "application/zip"⟩).selectedFile
      = (run init [Event.change (some ⟨"a.png", 500000, "image/png"⟩)]).widget.selectedFile :=
  (checkFile_failure_keeps_selectedFile _ ⟨"b.zip", 1000, "application/zip"⟩
    (Or.inr (by decide))).2.1

/-! ## Panel exclusivity -/

/-- C6, counterexample: from the loaded page, choosing a file that is too large
and then a valid one leaves two panels visible, the preview and the error
panel; clicking the upload button after a successful upload leaves the progress
and the success panel visible. -/
theorem panels_not_exclusive_example :
    visibleCount (run init [Event.change (some ⟨"c.png", 10485761, "image/png"⟩),
      Event.change (some ⟨"a.png", 500000, "image/png"⟩)]).widget = 2 ∧
    (run init [Event.change (some ⟨"c.png", 10485761, "image/png"⟩),
      Event.change (some ⟨"a.png", 500000, "image/png"⟩)]).widget.filePreview = Display.block ∧
    (run init [Event.change (some ⟨"c.png", 10485761, "image/png"⟩),
      Event.change (some ⟨"a.png", 500000, "image/png"⟩)]).widget.error = Display.block ∧
    visibleCount (run init [Event.change (some ⟨"a.png", 500000, "image/png"⟩),
      Event.uploadClick, Event.settle (FetchOutcome.response true (JsonResult.parsed (Body.object []))),
      Event.uploadClick]).widget = 2 := by
  refine ⟨by decide, by decide, by decide, by decide⟩

/-- C6, amended: `showError`, `showSuccess` and `resetUploader` hide every
other panel from any state, whereas `showFilePreview` hides only the upload
area and `uploadFile` only the preview.  Hence exactly one of the five panels
is visible after every sequence of events from the loaded page in which a file
is chosen only while the widget is Idle or Previewing and the upload button is
clicked only while it is Previewing or Uploading (responses, resets, cancels
and timer firings may come at any time). -/
theorem panels_exclusive (es : List Event) (h : allOffered init es = true) :
    visibleCount (run init es).widget = 1 ∧
    (uiState (run init es).widget).isSome = true ∧
    (∀ (w : Widget) (m : String), visibleCount (showError w m) = 1) ∧
    (∀ (w : Widget) (url : Option Value), visibleCount (showSuccess w url) = 1) ∧
    (∀ w : Widget, visibleCount (resetUploader w) = 1) := by
  have hrun := run_exclusive es init (by decide) h
  refine ⟨(visibleCount_eq_one_iff _).mpr hrun, hrun, ?_, ?_, ?_⟩
  · intro w m; simp [showError, hideAll, visibleCount]
  · intro w url; simp [showSuccess, hideAll, visibleCount]
  · intro w; simp [resetUploader, hideAll, visibleCount]

/-- Witness of the amended C6: a valid file, an upload, its ok response and a
reset, each offered where it is applied. -/
theorem panels_exclusive_witness :
    visibleCount (run init [Event.change (some ⟨"a.png", 500000, "image/png"⟩),
      Event.uploadClick, Event.tick 0,
      Event.settle (FetchOutcome.response true (JsonResult.parsed (Body.object [("url", Value.str "https://x/y")]))),
      Event.reset]).widget = 1 :=
  (panels_exclusive [Event.change (some ⟨"a.png", 500000, "image/png"⟩),
      Event.uploadClick, Event.tick 0,
      Event.settle (FetchOutcome.response true (JsonResult.parsed (Body.object [("url", Value.str "https://x/y")]))),
      Event.reset] (by decide)).1

/-! ## The lifetime of `selectedFile` -/

/-- C7, counterexample: after a valid file is chosen, the upload confirmed and
an ok response received, the widget is in Success and the uploaded file is
still stored as `selectedFile`. -/
theorem selectedFile_kept_in_success_example :
    uiState (run init [Event.change (some ⟨"a.png", 500000, "image/png"⟩),
      Event.uploadClick,
      Event.settle (FetchOutcome.response true (JsonResult.parsed (Body.object [("url", Value.str "https://x/y")])))]).widget
      = some UIState.Success ∧
    (run init [Event.change (some ⟨"a.png", 500000, "image/png"⟩),
      Event.uploadClick,
      Event.settle (FetchOutcome.response true (JsonResult.parsed (Body.object [("url", Value.str "https://x/y")])))]).widget.selectedFile
      = some ⟨"a.png", 500000, "image/png"⟩ := by
  refine ⟨by decide, by decide⟩

/-- C7, amended: in every state reached from the loaded page no file is stored
while the upload area is visible, in particular in Idle, and `resetUploader`
clears `selectedFile`; neither `showSuccess` nor `showError` assigns it, so the
file stays stored through Success and Error until the next reset. -/
theorem selectedFile_absent_in_idle (es : List Event) :
    ((run init es).widget.uploadArea = Display.block →
      (run init es).widget.selectedFile = Option.none) ∧
    (uiState (run init es).widget = some UIState.Idle →
      (run init es).widget.selectedFile = Option.none) ∧
    (resetUploader (run init es).widget).selectedFile = Option.none ∧
    (∀ url, (showSuccess (run init es).widget url).selectedFile
      = (run init es).widget.selectedFile) ∧
    (∀ m, (showError (run init es).widget m).selectedFile
      = (run init es).widget.selectedFile) := by
  have hinv : (run init es).widget.uploadArea = Display.block →
      (run init es).widget.selectedFile = Option.none :=
    run_induction
      (fun s => s.widget.uploadArea = Display.block → s.widget.selectedFile = Option.none)
      step_uploadArea_selectedFile es init (fun _ => rfl)
  refine ⟨hinv, ?_, rfl, fun _ => rfl, fun _ => rfl⟩
  intro hidle
  apply hinv
  generalize (run init es).widget = w at hidle
  rcases w with ⟨sel, fi, ua, fp, pb, r, er, fnm, fsz, pf, em, fu⟩
  cases ua <;> cases fp <;> cases pb <;> cases r <;> cases er <;>
    simp [uiState] at hidle ⊢

/-- Witness of the amended C7: after a file is chosen and the selection
cancelled, the upload area is visible and no file is stored. -/
theorem selectedFile_absent_in_idle_witness :
    (run init [Event.change (some ⟨"a.png", 500000, "image/png"⟩),
      Event.cancelClick]).widget.selectedFile = Option.none :=
  (selectedFile_absent_in_idle [Event.change (some ⟨"a.png", 500000, "image/png"⟩),
      Event.cancelClick]).1 (by decide)

/-! ## Reset and cancel -/

/-- C8: from every state `resetUploader` returns the widget to Idle: only the
upload area is visible, `selectedFile` is cleared and the progress indicator is
at 0%.  The cancel button runs the same function, and neither a cancel nor a
reset issues a request. -/
theorem resetUploader_idle (s : World) :
    uiState (resetUploader s.widget) = some UIState.Idle ∧
    visibleCount (resetUploader s.widget) = 1 ∧
    (resetUploader s.widget).uploadArea = Display.block ∧
    (resetUploader s.widget).selectedFile = Option.none ∧
    (resetUploader s.widget).progressFill = 0 ∧
    (step s Event.cancelClick).widget = resetUploader s.widget ∧
    (step s Event.reset).widget = resetUploader s.widget ∧
    (step s Event.cancelClick).requests = s.requests ∧
    (step s Event.cancelClick).pending = s.pending ∧
    (step s Event.reset).requests = s.requests ∧
    (step s Event.reset).pending = s.pending := by
  refine ⟨uiState_resetUploader _, ?_, rfl, rfl, rfl, rfl, rfl, rfl, rfl, rfl, rfl⟩
  simp [resetUploader, hideAll, visibleCount]

/-- C9: `resetUploader` is idempotent on the whole widget, and so is the reset
event on the whole world; the function is total, so no error is raised, and the
state stays Idle. -/
theorem resetUploader_idempotent (s : World) :
    resetUploader (resetUploader s.widget) = resetUploader s.widget ∧
    step (step s Event.reset) Event.reset = step s Event.reset ∧
    uiState (resetUploader (resetUploader s.widget)) = some UIState.Idle :=
  ⟨rfl, rfl, uiState_resetUploader _⟩

/-! ## A successful upload -/

/-- C10, counterexample: with a request pending after a valid file is chosen
and the upload confirmed, an ok response whose body carries the url field `""`
displays the generic message and not that url, and an ok response whose body is
`null`, which carries no url field, ends in the Error state with the
upload-failed message and the progress indicator not at 100, not in Success. -/
theorem success_empty_url_example :
    0 < (run init [Event.change (some ⟨"a.png", 500000, "image/png"⟩),
      Event.uploadClick]).pending ∧
    (step (run init [Event.change (some ⟨"a.png", 500000, "image/png"⟩), Event.uploadClick])
      (Event.settle (FetchOutcome.response true
        (JsonResult.parsed (Body.object [("url", Value.str "")]))))).widget.fileUrl
      = "File uploaded successfully" ∧
    (step (run init [Event.change (some ⟨"a.png", 500000, "image/png"⟩), Event.uploadClick])
      (Event.settle (FetchOutcome.response true
        (JsonResult.parsed (Body.object [("url", Value.str "")]))))).widget.fileUrl ≠ "" ∧
    uiState (step (run init [Event.change (some ⟨"a.png", 500000, "image/png"⟩),
        Event.uploadClick])
      (Event.settle (FetchOutcome.response true (JsonResult.parsed Body.null)))).widget
      = some UIState.Error ∧
    (step (run init [Event.change (some ⟨"a.png", 500000, "image/png"⟩), Event.uploadClick])
      (Event.settle (FetchOutcome.response true (JsonResult.parsed Body.null)))).widget.errorMessage
      = "Upload failed. Please try again." ∧
    (step (run init [Event.change (some ⟨"a.png", 500000, "image/png"⟩), Event.uploadClick])
      (Event.settle (FetchOutcome.response true (JsonResult.parsed Body.null)))).widget.progressFill
      = 0 := by
  refine ⟨by decide, by decide, by decide, by decide, by decide, by decide⟩

/-- C10, amended: while a request is pending, an ok response whose body is an
object carrying a non-empty url string `u` puts the widget in Success with `u`
displayed and the progress indicator at 100; so does any truthy url value, which
is displayed converted to a string.  When the body is an object whose url field
is absent or falsy (the empty string, `null`, `false`, zero), or another value
but `null`, the displayed text is "File uploaded successfully", again in
Success with the progress indicator at 100.  When the body is `null` or does
not parse, the widget ends in Error with the upload-failed message and the
progress indicator is left as it was. -/
theorem success_response (s : World) (fields : List (String × Value)) (u : String)
    (hp : 0 < s.pending) (hurl : property fields "url" = some (Value.str u)) (hu : u ≠ "") :
    uiState (step s (Event.settle (FetchOutcome.response true
      (JsonResult.parsed (Body.object fields))))).widget = some UIState.Success ∧
    (step s (Event.settle (FetchOutcome.response true
      (JsonResult.parsed (Body.object fields))))).widget.fileUrl = u ∧
    (step s (Event.settle (FetchOutcome.response true
      (JsonResult.parsed (Body.object fields))))).widget.progressFill = 100 ∧
    (∀ (fs : List (String × Value)) (v : Value),
      property fs "url" = some v → v.truthy = true →
      uiState (step s (Event.settle (FetchOutcome.response true
        (JsonResult.parsed (Body.object fs))))).widget = some UIState.Success ∧
      (step s (Event.settle (FetchOutcome.response true
        (JsonResult.parsed (Body.object fs))))).widget.fileUrl = v.toJsString ∧
      (step s (Event.settle (FetchOutcome.response true
        (JsonResult.parsed (Body.object fs))))).widget.progressFill = 100) ∧
    (∀ fs : List (String × Value),
      (property fs "url" = Option.none ∨
        ∃ v, property fs "url" = some v ∧ v.truthy = false) →
      uiState (step s (Event.settle (FetchOutcome.response true
        (JsonResult.parsed (Body.object fs))))).widget = some UIState.Success ∧
      (step s (Event.settle (FetchOutcome.response true
        (JsonResult.parsed (Body.object fs))))).widget.fileUrl = "File uploaded successfully" ∧
      (step s (Event.settle (FetchOutcome.response true
        (JsonResult.parsed (Body.object fs))))).widget.progressFill = 100) ∧
    (uiState (step s (Event.settle (FetchOutcome.response true
        (JsonResult.parsed Body.other)))).widget = some UIState.Success ∧
      (step s (Event.settle (FetchOutcome.response true
        (JsonResult.parsed Body.other)))).widget.fileUrl = "File uploaded successfully" ∧
      (step s (Event.settle (FetchOutcome.response true
        (JsonResult.parsed Body.other)))).widget.progressFill = 100) ∧
    (∀ j : JsonResult, (j = JsonResult.parsed Body.null ∨ ∃ r, j = JsonResult.failed r) →
      uiState (step s (Event.settle (FetchOutcome.response true j))).widget
        = some UIState.Error ∧
      (step s (Event.settle (FetchOutcome.response true j))).widget.errorMessage
        = "Upload failed. Please try again." ∧
      (step s (Event.settle (FetchOutcome.response true j))).widget.progressFill
        = s.widget.progressFill) := by
  have hstr : (Value.str u).truthy = true := by simp [Value.truthy, hu]
  refine ⟨?_, ?_, ?_, ?_, ?_, ?_, ?_⟩
  · simp [step, hp, fetchSettled, uiState_showSuccess]
  · simp [step, hp, fetchSettled, showSuccess, orDefault, hurl, hstr, Value.toJsString]
  · simp [step, hp, fetchSettled, showSuccess]
  · intro fs v hv ht
    refine ⟨?_, ?_, ?_⟩
    · simp [step, hp, fetchSettled, uiState_showSuccess]
    · simp [step, hp, fetchSettled, showSuccess, orDefault, hv, ht]
    · simp [step, hp, fetchSettled, showSuccess]
  · intro fs hfs
    refine ⟨?_, ?_, ?_⟩
    · simp [step, hp, fetchSettled, uiState_showSuccess]
    · rcases hfs with h | ⟨v, h, hv⟩
      · simp [step, hp, fetchSettled, showSuccess, orDefault, h]
      · simp [step, hp, fetchSettled, showSuccess, orDefault, h, hv]
    · simp [step, hp, fetchSettled, showSuccess]
  · refine ⟨?_, ?_, ?_⟩
    · simp [step, hp, fetchSettled, uiState_showSuccess]
    · simp [step, hp, fetchSettled, showSuccess, orDefault]
    · simp [step, hp, fetchSettled, showSuccess]
  · intro j hj
    rcases hj with h | ⟨r, h⟩ <;> subst h
    · exact ⟨by simp [step, hp, fetchSettled, uiState_showError],
        by simp [step, hp, fetchSettled, showError],
        by simp [step, hp, fetchSettled, showError, hideAll]⟩
    · exact ⟨by simp [step, hp, fetchSettled, uiState_showError],
        by simp [step, hp, fetchSettled, showError],
        by simp [step, hp, fetchSettled, showError, hideAll]⟩

/-- Witness of the amended C10: after a valid file is chosen and the upload
confirmed, the response with body url "https://x/y" displays "https://x/y" in
the Success state. -/
theorem success_response_witness :
    uiState (step (run init [Event.change (some ⟨"a.png", 500000, "image/png"⟩),
        Event.uploadClick])
      (Event.settle (FetchOutcome.response true
        (JsonResult.parsed (Body.object [("url", Value.str "https://x/y")]))))).widget
      = some UIState.Success ∧
    (step (run init [Event.change (some ⟨"a.png", 500000, "image/png"⟩), Event.uploadClick])
      (Event.settle (FetchOutcome.response true
        (JsonResult.parsed (Body.object [("url", Value.str "https://x/y")]))))).widget.fileUrl
      = "https://x/y" :=
  ⟨(success_response _ [("url", Value.str "https://x/y")] "https://x/y"
      (by decide) (by decide) (by decide)).1,
   (success_response _ [("url", Value.str "https://x/y")] "https://x/y"
      (by decide) (by decide) (by decide)).2.1⟩

/-! ## A failed upload -/

/-- C11: while a request is pending, a response that is not ok (whatever its
body) and a rejected fetch (whatever its message) both put the widget in the
Error state with the message "Upload failed. Please try again.", and the two
resulting widgets are equal: only the console line tells the failures apart. -/
theorem upload_failure (s : World) (body : JsonResult) (message : String)
    (hp : 0 < s.pending) :
    uiState (step s (Event.settle (FetchOutcome.response false body))).widget
      = some UIState.Error ∧
    (step s (Event.settle (FetchOutcome.response false body))).widget.errorMessage
      = "Upload failed. Please try again." ∧
    uiState (step s (Event.settle (FetchOutcome.rejected message))).widget
      = some UIState.Error ∧
    (step s (Event.settle (FetchOutcome.rejected message))).widget.errorMessage
      = "Upload failed. Please try again." ∧
    (step s (Event.settle (FetchOutcome.response false body))).widget
      = (step s (Event.settle (FetchOutcome.rejected message))).widget := by
  refine ⟨?_, ?_, ?_, ?_, ?_⟩
  · simp [step, hp, fetchSettled, uiState_showError]
  · simp [step, hp, fetchSettled, showError]
  · simp [step, hp, fetchSettled, uiState_showError]
  · simp [step, hp, fetchSettled, showError]
  · simp [step, hp, fetchSettled]

/-- Witness of C11: after a valid file is chosen and the upload confirmed, a
response that is not ok and a network failure give the same widget. -/
theorem upload_failure_witness :
    (step (run init [Event.change (some ⟨"a.png", 500000, "image/png"⟩), Event.uploadClick])
      (Event.settle (FetchOutcome.response false (JsonResult.failed "Unexpected end of JSON input")))).widget
    = (step (run init [Event.change (some ⟨"a.png", 500000, "image/png"⟩), Event.uploadClick])
      (Event.settle (FetchOutcome.rejected "Failed to fetch"))).widget :=
  (upload_failure _ (JsonResult.failed "Unexpected end of JSON input") "Failed to fetch"
    (by decide)).2.2.2.2

/-! ## The guard of the upload button -/

/-- C12, counterexample: after a valid file is chosen and the upload confirmed
the widget is Uploading with one request pending, and a second click issues a
second request; after an ok response the widget is in Success with no request
pending, and a click issues a new request and shows the progress panel next to
the success panel. -/
theorem uploadClick_not_noop_example :
    uiState (run init [Event.change (some ⟨"a.png", 500000, "image/png"⟩),
      Event.uploadClick]).widget = some UIState.Uploading ∧
    (run init [Event.change (some ⟨"a.png", 500000, "image/png"⟩),
      Event.uploadClick]).pending = 1 ∧
    (step (run init [Event.change (some ⟨"a.png", 500000, "image/png"⟩), Event.uploadClick])
      Event.uploadClick).pending = 2 ∧
    (step (run init [Event.change (some ⟨"a.png", 500000, "image/png"⟩), Event.uploadClick])
      Event.uploadClick).requests.length = 2 ∧
    uiState (run init [Event.change (some ⟨"a.png", 500000, "image/png"⟩),
      Event.uploadClick,
      Event.settle (FetchOutcome.response true (JsonResult.parsed (Body.object [])))]).widget
      = some UIState.Success ∧
    (step (run init [Event.change (some ⟨"a.png", 500000, "image/png"⟩),
      Event.uploadClick,
      Event.settle (FetchOutcome.response true (JsonResult.parsed (Body.object [])))])
      Event.uploadClick).pending = 1 ∧
    (step (run init [Event.change (some ⟨"a.png", 500000, "image/png"⟩),
      Event.uploadClick,
      Event.settle (FetchOutcome.response true (JsonResult.parsed (Body.object [])))])
      Event.uploadClick).widget.progressBar = Display.block := by
  refine ⟨by decide, by decide, by decide, by decide, by decide, by decide, by decide⟩

/-- C12, amended: the only guard of the upload click handler is the presence
of `selectedFile`.  With no file stored, which is the case in every Idle state
reached from the loaded page, the click changes nothing and issues no request;
with a file stored it issues one request for that file, hides the preview and
shows the progress panel, whatever panel was visible.  At most one request is
pending after every sequence of events in which the button is clicked only
while the widget is Previewing, a file is chosen only while it is Idle or
Previewing, and no cancel or reset comes while it is Uploading. -/
theorem uploadClick_guard (es : List Event) :
    (∀ s : World, s.widget.selectedFile = Option.none → step s Event.uploadClick = s) ∧
    (uiState (run init es).widget = some UIState.Idle →
      step (run init es) Event.uploadClick = run init es) ∧
    (∀ (s : World) (f : File), s.widget.selectedFile = some f →
      (step s Event.uploadClick).requests = s.requests ++ [some f] ∧
      (step s Event.uploadClick).pending = s.pending + 1 ∧
      (step s Event.uploadClick).widget.filePreview = Display.none ∧
      (step s Event.uploadClick).widget.progressBar = Display.block) ∧
    (allEnabled init es = true → (run init es).pending ≤ 1) := by
  have hnone : ∀ s : World, s.widget.selectedFile = Option.none →
      step s Event.uploadClick = s := by
    intro s h
    simp [step, onUploadClick, h]
  refine ⟨hnone, ?_, ?_, ?_⟩
  · intro hidle
    apply hnone
    have hinv : (run init es).widget.uploadArea = Display.block →
        (run init es).widget.selectedFile = Option.none :=
      run_induction
        (fun s => s.widget.uploadArea = Display.block → s.widget.selectedFile = Option.none)
        step_uploadArea_selectedFile es init (fun _ => rfl)
    apply hinv
    generalize (run init es).widget = w at hidle
    rcases w with ⟨sel, fi, ua, fp, pb, r, er, fnm, fsz, pf, em, fu⟩
    cases ua <;> cases fp <;> cases pb <;> cases r <;> cases er <;>
      simp [uiState] at hidle ⊢
  · intro s f h
    simp [step, onUploadClick, h, uploadFile, simulateProgress]
  · intro he
    rcases run_pending es init (Or.inl rfl) he with h | ⟨h, _⟩ <;> omega

/-- Witness of the amended C12: with every event enabled where it is applied
(a file chosen, the upload confirmed, the response received, a reset, and a
second file chosen and uploaded), one request is pending at the end. -/
theorem uploadClick_guard_witness :
    (run init [Event.change (some ⟨"a.png", 500000, "image/png"⟩), Event.uploadClick,
      Event.settle (FetchOutcome.response false (JsonResult.failed "Unexpected end of JSON input")), Event.reset,
      Event.change (some ⟨"b.txt", 10, "text/plain"⟩), Event.uploadClick]).pending ≤ 1 :=
  (uploadClick_guard [Event.change (some ⟨"a.png", 500000, "image/png"⟩), Event.uploadClick,
      Event.settle (FetchOutcome.response false (JsonResult.failed "Unexpected end of JSON input")), Event.reset,
      Event.change (some ⟨"b.txt", 10, "text/plain"⟩), Event.uploadClick]).2.2.2 (by decide)

/-! ## The progress ticker -/

/-- C13: the interval started by `simulateProgress` advances in steps of 10 and
stops at 90: after `k >= 1` timer periods the width it has written is
`10 * min k 9` percent, its closure variable holds the same value, it is still
scheduled exactly when `k < 9` (it clears itself on the ninth firing), the
width never exceeds 90, and from the ninth period on a further period fires
nothing. -/
theorem simulateProgress_ticks (s : World) (k : Nat) (hk : 1 ≤ k) :
    (run (simulateProgress s) (List.replicate k (Event.tick s.tickers.length))).widget.progressFill
      = 10 * min k 9 ∧
    (run (simulateProgress s) (List.replicate k (Event.tick s.tickers.length))).tickers.get?
        s.tickers.length
      = some ⟨10 * min k 9, decide (k < 9)⟩ ∧
    (run (simulateProgress s) (List.replicate k (Event.tick s.tickers.length))).widget.progressFill
      ≤ 90 ∧
    (9 ≤ k →
      step (run (simulateProgress s) (List.replicate k (Event.tick s.tickers.length)))
          (Event.tick s.tickers.length)
        = run (simulateProgress s) (List.replicate k (Event.tick s.tickers.length))) := by
  have h := run_ticks s.tickers.length (simulateProgress s) (simulateProgress_get s) k
  refine ⟨h.2 hk, h.1, ?_, ?_⟩
  · rw [h.2 hk]; omega
  · intro h9
    have ha : (⟨10 * min k 9, decide (k < 9)⟩ : Ticker).active = false := by
      simp; omega
    exact tickerFire_inactive _ _ _ h.1 ha

/-- Witness of C13 on the loaded page: after 3 periods the width is 30, after
12 periods it is 90. -/
theorem simulateProgress_ticks_witness :
    (run (simulateProgress init) (List.replicate 3 (Event.tick 0))).widget.progressFill = 30 ∧
    (run (simulateProgress init) (List.replicate 12 (Event.tick 0))).widget.progressFill = 90 :=
  ⟨(simulateProgress_ticks init 3 (by decide)).1, (simulateProgress_ticks init 12 (by decide)).1⟩

/-- C14, the code at the failing input: after a valid file is chosen and the
upload confirmed, an ok response sets the progress indicator to 100, as the
comment "Complete progress bar" of `showSuccess` says, and the next firing of
the interval of that upload sets it to 10, the ninth to 90, where it stays; a
reset sets it to 0, as the comment "Reset progress bar" of `resetUploader`
says, and the next firing of the interval sets it to 10. -/
theorem tick_overwrites_example :
    (run init [Event.change (some ⟨"a.png", 500000, "image/png"⟩), Event.uploadClick,
      Event.settle (FetchOutcome.response true
        (JsonResult.parsed (Body.object [("url", Value.str "https://x/y")])))]).widget.progressFill
      = 100 ∧
    (run init [Event.change (some ⟨"a.png", 500000, "image/png"⟩), Event.uploadClick,
      Event.settle (FetchOutcome.response true
        (JsonResult.parsed (Body.object [("url", Value.str "https://x/y")]))),
      Event.tick 0]).widget.progressFill = 10 ∧
    (run init ([Event.change (some ⟨"a.png", 500000, "image/png"⟩), Event.uploadClick,
      Event.settle (FetchOutcome.response true
        (JsonResult.parsed (Body.object [("url", Value.str "https://x/y")])))]
      ++ List.replicate 9 (Event.tick 0))).widget.progressFill = 90 ∧
    (run init ([Event.change (some ⟨"a.png", 500000, "image/png"⟩), Event.uploadClick,
      Event.settle (FetchOutcome.response true
        (JsonResult.parsed (Body.object [("url", Value.str "https://x/y")])))]
      ++ List.replicate 12 (Event.tick 0))).widget.progressFill = 90 ∧
    (run init [Event.change (some ⟨"a.png", 500000, "image/png"⟩), Event.uploadClick,
      Event.reset]).widget.progressFill = 0 ∧
    (run init [Event.change (some ⟨"a.png", 500000, "image/png"⟩), Event.uploadClick,
      Event.reset, Event.tick 0]).widget.progressFill = 10 := by
  refine ⟨by decide, by decide, by decide, by decide, by decide, by decide⟩

/-- The interval of an upload is cleared by nothing but its own ninth firing.
In a state reached from the loaded page, while an interval is still scheduled
its next firing after a settled fetch, a reset or a cancel overwrites the
progress indicator with its own value, a multiple of 10 between 10 and 90, so
neither the 100 written by `showSuccess` nor the 0 written by `resetUploader`
stays; once the interval has cleared itself a further period changes
nothing. -/
theorem tick_after_response_or_reset (es : List Event) (i : Nat) (t : Ticker)
    (hget : (run init es).tickers.get? i = some t) :
    (t.active = true →
      (∀ o, (step (step (run init es) (Event.settle o)) (Event.tick i)).widget.progressFill
        = t.progress + 10) ∧
      (step (step (run init es) Event.reset) (Event.tick i)).widget.progressFill
        = t.progress + 10 ∧
      (step (step (run init es) Event.cancelClick) (Event.tick i)).widget.progressFill
        = t.progress + 10 ∧
      0 < t.progress + 10 ∧ t.progress + 10 < 100 ∧ 10 ∣ t.progress + 10) ∧
    (∀ fields, 0 < (run init es).pending →
      (step (run init es) (Event.settle (FetchOutcome.response true
        (JsonResult.parsed (Body.object fields))))).widget.progressFill = 100) ∧
    (step (run init es) Event.reset).widget.progressFill = 0 ∧
    (t.active = false →
      (∀ o, step (step (run init es) (Event.settle o)) (Event.tick i)
        = step (run init es) (Event.settle o)) ∧
      step (step (run init es) Event.reset) (Event.tick i) = step (run init es) Event.reset) := by
  refine ⟨?_, ?_, rfl, ?_⟩
  · intro hact
    have hb := run_tickers_bound es t (List.get?_mem hget) hact
    have hd := run_tickers_dvd es t (List.get?_mem hget)
    refine ⟨?_, ?_, ?_, by omega, by omega, Nat.dvd_add hd (Nat.dvd_refl 10)⟩
    · intro o
      have hg : (step (run init es) (Event.settle o)).tickers.get? i = some t := by
        rw [step_settle_tickers]; exact hget
      show (tickerFire _ i).widget.progressFill = _
      rw [tickerFire_active _ i t hg hact]
    · show (tickerFire _ i).widget.progressFill = _
      rw [tickerFire_active (step (run init es) Event.reset) i t hget hact]
    · show (tickerFire _ i).widget.progressFill = _
      rw [tickerFire_active (step (run init es) Event.cancelClick) i t hget hact]
  · intro fields hp
    simp [step, hp, fetchSettled, showSuccess]
  · intro hact
    refine ⟨?_, ?_⟩
    · intro o
      have hg : (step (run init es) (Event.settle o)).tickers.get? i = some t := by
        rw [step_settle_tickers]; exact hget
      exact tickerFire_inactive _ i t hg hact
    · exact tickerFire_inactive (step (run init es) Event.reset) i t hget hact

/-- After two firings of the interval of an upload, an ok response followed by
a third firing leaves the progress indicator at 30. -/
theorem tick_after_response_or_reset_witness :
    (step (step (run init [Event.change (some ⟨"a.png", 500000, "image/png"⟩),
        Event.uploadClick, Event.tick 0, Event.tick 0])
      (Event.settle (FetchOutcome.response true
        (JsonResult.parsed (Body.object [("url", Value.str "https://x/y")])))))
      (Event.tick 0)).widget.progressFill = 20 + 10 :=
  ((tick_after_response_or_reset [Event.change (some ⟨"a.png", 500000, "image/png"⟩),
      Event.uploadClick, Event.tick 0, Event.tick 0] 0 ⟨20, true⟩ (by decide)).1 rfl).1
    (FetchOutcome.response true
      (JsonResult.parsed (Body.object [("url", Value.str "https://x/y")])))

/-! ## A response that arrives after a reset -/

/-- C15, counterexample: after a valid file is chosen, the upload confirmed and
`resetUploader` called, the widget is Idle with the request still pending; an
ok response then puts it in Success with the url displayed, and a failure puts
it in Error with the upload-failed message. -/
theorem late_response_example :
    uiState (run init [Event.change (some ⟨"a.png", 500000, "image/png"⟩), Event.uploadClick,
      Event.reset]).widget = some UIState.Idle ∧
    (run init [Event.change (some ⟨"a.png", 500000, "image/png"⟩), Event.uploadClick,
      Event.reset]).pending = 1 ∧
    uiState (run init [Event.change (some ⟨"a.png", 500000, "image/png"⟩), Event.uploadClick,
      Event.reset,
      Event.settle (FetchOutcome.response true
        (JsonResult.parsed (Body.object [("url", Value.str "https://x/y")])))]).widget
      = some UIState.Success ∧
    (run init [Event.change (some ⟨"a.png", 500000, "image/png"⟩), Event.uploadClick,
      Event.reset,
      Event.settle (FetchOutcome.response true
        (JsonResult.parsed (Body.object [("url", Value.str "https://x/y")])))]).widget.fileUrl
      = "https://x/y" ∧
    uiState (run init [Event.change (some ⟨"a.png", 500000, "image/png"⟩), Event.uploadClick,
      Event.reset, Event.settle (FetchOutcome.rejected "Failed to fetch")]).widget
      = some UIState.Error ∧
    (run init [Event.change (some ⟨"a.png", 500000, "image/png"⟩), Event.uploadClick,
      Event.reset, Event.settle (FetchOutcome.rejected "Failed to fetch")]).widget.errorMessage
      = "Upload failed. Please try again." := by
  refine ⟨by decide, by decide, by decide, by decide, by decide, by decide⟩

/-- C15, amended: a reset while a request is pending shows Idle and leaves the
request pending, and the result of that request is not discarded when it
resolves: an ok response whose body parses to a value other than `null` runs
`showSuccess` on the reset widget (Success, the url or the generic message
displayed, progress at 100), every other outcome runs `showError` with the
upload-failed message (Error).  The widget therefore leaves Idle and the upload
area is hidden; `selectedFile` stays cleared. -/
theorem late_response_after_reset (s : World) (o : FetchOutcome) (hp : 0 < s.pending) :
    uiState (step s Event.reset).widget = some UIState.Idle ∧
    (step s Event.reset).pending = s.pending ∧
    (uiState (step (step s Event.reset) (Event.settle o)).widget = some UIState.Success ∨
      uiState (step (step s Event.reset) (Event.settle o)).widget = some UIState.Error) ∧
    (step (step s Event.reset) (Event.settle o)).widget ≠ (step s Event.reset).widget ∧
    (step (step s Event.reset) (Event.settle o)).widget.uploadArea = Display.none ∧
    (step (step s Event.reset) (Event.settle o)).widget.selectedFile = Option.none ∧
    (∀ fields, (step (step s Event.reset) (Event.settle (FetchOutcome.response true
        (JsonResult.parsed (Body.object fields))))).widget
      = showSuccess (resetUploader s.widget) (property fields "url")) ∧
    (step (step s Event.reset) (Event.settle (FetchOutcome.response true
        (JsonResult.parsed Body.other)))).widget
      = showSuccess (resetUploader s.widget) Option.none ∧
    (∀ b, (step (step s Event.reset) (Event.settle (FetchOutcome.response false b))).widget
      = showError (resetUploader s.widget) "Upload failed. Please try again.") ∧
    (∀ m, (step (step s Event.reset) (Event.settle (FetchOutcome.rejected m))).widget
      = showError (resetUploader s.widget) "Upload failed. Please try again.") ∧
    (∀ r, (step (step s Event.reset) (Event.settle (FetchOutcome.response true
        (JsonResult.failed r)))).widget
      = showError (resetUploader s.widget) "Upload failed. Please try again.") ∧
    (step (step s Event.reset) (Event.settle (FetchOutcome.response true
        (JsonResult.parsed Body.null)))).widget
      = showError (resetUploader s.widget) "Upload failed. Please try again." := by
  have hstep : ∀ o, (step (step s Event.reset) (Event.settle o)).widget
      = (fetchSettled (step s Event.reset) o).widget := by
    intro o
    have hp' : 0 < (step s Event.reset).pending := hp
    simp only [step, hp, if_true]
    rcases o with ⟨ok, j⟩ | m
    · cases ok <;> rcases j with (_ | _ | _) | _ <;> rfl
    · rfl
  have hcases : (∃ url, (step (step s Event.reset) (Event.settle o)).widget
        = showSuccess (resetUploader s.widget) url) ∨
      (step (step s Event.reset) (Event.settle o)).widget
        = showError (resetUploader s.widget) "Upload failed. Please try again." := by
    rw [hstep]
    rcases o with ⟨ok, j⟩ | m
    · cases ok <;> rcases j with (_ | fields | _) | r
      · right; rfl
      · right; rfl
      · right; rfl
      · right; rfl
      · right; rfl
      · left; exact ⟨property fields "url", rfl⟩
      · left; exact ⟨Option.none, rfl⟩
      · right; rfl
    · right; rfl
  refine ⟨uiState_resetUploader _, rfl, ?_, ?_, ?_, ?_, ?_, ?_, ?_, ?_, ?_, ?_⟩
  · rcases hcases with ⟨url, h⟩ | h
    · left; rw [h]; exact uiState_showSuccess _ _
    · right; rw [h]; exact uiState_showError _ _
  · intro heq
    have hu : (step (step s Event.reset) (Event.settle o)).widget.uploadArea
        = (step s Event.reset).widget.uploadArea := by rw [heq]
    rcases hcases with ⟨url, h⟩ | h <;> rw [h] at hu <;>
      simp [showSuccess, showError, hideAll, step, resetUploader] at hu
  · rcases hcases with ⟨url, h⟩ | h <;> rw [h] <;> rfl
  · rcases hcases with ⟨url, h⟩ | h <;> rw [h] <;> rfl
  · intro fields; rw [hstep]; rfl
  · rw [hstep]; rfl
  · intro b; rw [hstep]; rfl
  · intro m; rw [hstep]; rfl
  · intro r; rw [hstep]; rfl
  · rw [hstep]; rfl

/-- Witness of the amended C15: the upload is confirmed, reset, and the ok
response that arrives afterwards is displayed. -/
theorem late_response_after_reset_witness :
    (step (step (run init [Event.change (some ⟨"a.png", 500000, "image/png"⟩),
        Event.uploadClick]) Event.reset)
      (Event.settle (FetchOutcome.response true
        (JsonResult.parsed (Body.object [("url", Value.str "https://x/y")]))))).widget
    = showSuccess (resetUploader (run init [Event.change (some ⟨"a.png", 500000, "image/png"⟩),
        Event.uploadClick]).widget) (some (Value.str "https://x/y")) :=
  (late_response_after_reset _ (FetchOutcome.rejected "Failed to fetch")
    (by decide)).2.2.2.2.2.2.1 [("url", Value.str "https://x/y")]

/-! ## Bounds of the displayed size -/

/-- C16: for an accepted file below 1,048,576 bytes the number shown before
" KB" is between 0 and 1024; sizes 0 to 511 display "0 KB" (an empty file of an
allowed type is accepted) and sizes 1,048,064 to 1,048,575 display "1024 KB";
for an accepted file of at least 1,048,576 bytes the value shown before " MB"
is between 1.00 and 10.00. -/
theorem sizeText_bounds (w : Widget) (file : File) (hsize : file.size ≤ 10485760)
    (htype : file.type ∈
      ["image/jpeg", "image/png", "image/gif", "application/pdf", "text/plain"]) :
    (checkFile w file).selectedFile = some file ∧
    (file.size < 1048576 →
      ∃ k : ℕ, 0 ≤ k ∧ k ≤ 1024 ∧ (checkFile w file).fileSize = Nat.repr k ++ " KB") ∧
    (file.size ≤ 511 → (checkFile w file).fileSize = "0 KB") ∧
    (1048064 ≤ file.size → file.size ≤ 1048575 → (checkFile w file).fileSize = "1024 KB") ∧
    (1048576 ≤ file.size →
      ∃ h : ℕ, 100 ≤ h ∧ h ≤ 1000 ∧ (checkFile w file).fileSize = twoDecimals h ++ " MB") ∧
    (∀ name : String, (checkFile w ⟨name, 0, "text/plain"⟩).selectedFile
      = some ⟨name, 0, "text/plain"⟩) := by
  have h1 : ¬ file.size > MAX_FILE_SIZE := Nat.not_lt.mpr hsize
  have h2 : file.type ∈ allowedTypes := htype
  have hshow : (checkFile w file).fileSize = sizeText file.size := by
    simp [checkFile, h1, h2, showFilePreview]
  refine ⟨checkFile_valid_selectedFile w file ⟨hsize, h2⟩, ?_, ?_, ?_, ?_, ?_⟩
  · intro hlt
    refine ⟨(2 * file.size + 1024) / 2048, Nat.zero_le _, by omega, ?_⟩
    rw [hshow, sizeText_eq, if_pos hlt]
  · intro hle
    have hk : (2 * file.size + 1024) / 2048 = 0 := by omega
    rw [hshow, sizeText_eq, if_pos (by omega), hk]
    decide
  · intro hlo hhi
    have hk : (2 * file.size + 1024) / 2048 = 1024 := by omega
    rw [hshow, sizeText_eq, if_pos (by omega), hk]
    decide
  · intro hge
    refine ⟨(200 * file.size + 1048576) / 2097152, by omega, by omega, ?_⟩
    rw [hshow, sizeText_eq, if_neg (Nat.not_lt.mpr hge)]
    rw [toFixedDigits_two _ (by omega) (by omega)]
  · intro name
    exact checkFile_valid_selectedFile w ⟨name, 0, "text/plain"⟩
      ⟨Nat.zero_le _, by simp [allowedTypes]⟩

/-- Witness of C16: an empty text file displays "0 KB", a file of 1,048,064
bytes displays "1024 KB". -/
theorem sizeText_bounds_witness :
    (checkFile initWidget ⟨"e.txt", 0, "text/plain"⟩).fileSize = "0 KB" ∧
    (checkFile initWidget ⟨"f.txt", 1048064, "text/plain"⟩).fileSize = "1024 KB" :=
  ⟨(sizeText_bounds initWidget ⟨"e.txt", 0, "text/plain"⟩ (by decide) (by decide)).2.2.1
      (by decide),
   (sizeText_bounds initWidget ⟨"f.txt", 1048064, "text/plain"⟩ (by decide) (by decide)).2.2.2.1
      (by decide) (by decide)⟩

end FileUploader
